import Mathlib

/-!
# The pdfium JNI bridge (`pdfium_jni.cpp`)

A shallow embedding of the exported functions of `pdfium_jni.cpp`.  The bridge owns no
algorithm: every exported function checks its arguments, calls one or more entry points of
the pdfium library and of the JNI environment, and marshals the result.  The embedding
therefore treats pdfium and the JNI environment as oracles over an arbitrary state `σ`
and records every call made to them in a trace.

Conventions:
* an exported function `Java_com_fcl_pdfium_1wrapper_PdfiumJNI_<name>` is the definition
  `<name>`; the overload of `loadMemDocument` that takes a `ByteBuffer` is
  `loadMemDocumentBuffer`.  The unused `jclass` argument is dropped, and the `JNIEnv*` and
  the linked pdfium library are the two oracle arguments.
* the arguments of the logging macros other than the format string are not recorded.
* `jint`, `jsize`, `int`, `FPDF_BOOL` and `jlong` values are `Int`; conversions between widths
  are written out with `wrapS`/`wrapU`.
* native pointers are 64-bit addresses (`Ptr`); the null pointer is `0`.
* JNI object references are `Option JRef`, `none` being the null reference; a Java array
  that the bridge creates and returns is carried by value, as the list of its elements.
* a `double` is carried as its IEEE-754 bit pattern (`JDouble`): the bridge never computes
  with one, it only moves them.
-/

namespace PdfiumJNI

/-! ## Machine values -/

/-- Reading of an integer as an unsigned `w`-bit value (conversion to an unsigned type). -/
def wrapU (w : Nat) (x : Int) : Int := x % 2 ^ w

/-- Reading of an integer as a two's-complement signed `w`-bit value (conversion to a
signed type of `w` bits). -/
def wrapS (w : Nat) (x : Int) : Int :=
  if x % 2 ^ w < 2 ^ (w - 1) then x % 2 ^ w else x % 2 ^ w - 2 ^ w

/-- Native pointer: a 64-bit address. -/
abbrev Ptr := Fin (2 ^ 64)

/-- The null pointer. -/
def nullptr : Ptr := 0

/-- JNI object identity. -/
abbrev JRef := Nat

/-- IEEE-754 binary64 value, by bit pattern. -/
structure JDouble where
  bits : Nat
  deriving DecidableEq, Repr

/-- The literal `0.0`. -/
def JDouble.zero : JDouble := ⟨0⟩

/-- Macro `TO_JLONG`: the pointer reinterpreted as a `jlong`. -/
def TO_JLONG (ptr : Ptr) : Int := wrapS 64 (ptr.val : Int)

/-- Pointer with the bit pattern of a `jlong`; the three macros `TO_FPDF_DOCUMENT`,
`TO_FPDF_PAGE` and `TO_FPDF_BITMAP` are this cast at three pointer types. -/
def jlongToPtr (h : Int) : Ptr :=
  ⟨(wrapU 64 h).toNat, by unfold wrapU; omega⟩

/-! ## The world: oracle state, call trace, log -/

/-- Calls into the pdfium library, with the arguments passed by value.  Out-parameters
(addresses of locals of the bridge) are not recorded. -/
inductive LibCall where
  | FPDF_InitLibrary
  | FPDF_DestroyLibrary
  | FPDF_LoadDocument (file_path password : Ptr)
  | FPDF_LoadMemDocument (data_buf : Ptr) (size : Int) (password : Ptr)
  | FPDF_GetLastError
  | FPDF_CloseDocument (document : Ptr)
  | FPDF_GetPageCount (document : Ptr)
  | FPDF_GetFileVersion (document : Ptr)
  | FPDF_GetDocPermissions (document : Ptr)
  | FPDF_LoadPage (document : Ptr) (page_index : Int)
  | FPDF_ClosePage (page : Ptr)
  | FPDF_GetPageWidth (page : Ptr)
  | FPDF_GetPageHeight (page : Ptr)
  | FPDF_GetPageSizeByIndex (document : Ptr) (page_index : Int)
  | FPDFBitmap_Create (width height alpha : Int)
  | FPDFBitmap_CreateEx (width height format : Int) (first_scan : Ptr) (stride : Int)
  | FPDFBitmap_Destroy (bitmap : Ptr)
  | FPDFBitmap_FillRect (bitmap : Ptr) (left top width height : Int) (color : Int)
  | FPDFBitmap_GetBuffer (bitmap : Ptr)
  | FPDFBitmap_GetWidth (bitmap : Ptr)
  | FPDFBitmap_GetHeight (bitmap : Ptr)
  | FPDFBitmap_GetStride (bitmap : Ptr)
  | FPDF_RenderPageBitmap (bitmap page : Ptr)
      (start_x start_y size_x size_y rotate flags : Int)
  | FPDF_DeviceToPage (page : Ptr)
      (start_x start_y size_x size_y rotate device_x device_y : Int)
  | FPDF_PageToDevice (page : Ptr)
      (start_x start_y size_x size_y rotate : Int) (page_x page_y : JDouble)
  deriving DecidableEq, Repr

/-- Calls into the JNI environment. -/
inductive JniCall where
  | GetStringUTFChars (string : JRef)
  | ReleaseStringUTFChars (string : JRef) (utf : Ptr)
  | GetArrayLength (array : JRef)
  | GetByteArrayElements (array : JRef)
  | ReleaseByteArrayElements (array : JRef) (elems : Ptr) (mode : Int)
  | GetDirectBufferAddress (buf : JRef)
  | GetDirectBufferCapacity (buf : JRef)
  | NewDoubleArray (length : Int)
  | SetDoubleArrayRegion (start len : Int) (buf : List JDouble)
  | NewIntArray (length : Int)
  | SetIntArrayRegion (start len : Int) (buf : List Int)
  | NewDirectByteBuffer (address : Ptr) (capacity : Int)
  deriving DecidableEq, Repr

/-- One recorded call. -/
inductive Call where
  | lib (c : LibCall)
  | jni (c : JniCall)
  deriving DecidableEq, Repr

/-- Android log priority used by the two logging macros. -/
inductive Priority where
  | debug
  | error
  deriving DecidableEq, Repr

/-- State threaded through an exported function: the state of the oracles, the calls made
so far (oldest first) and the log lines written so far (format strings). -/
structure World (σ : Type) where
  st : σ
  trace : List Call
  log : List (Priority × String)

/-- Computation of the bridge. -/
def Op (σ α : Type) : Type := World σ → α × World σ

/-- Runs a computation from a world. -/
def Op.run {σ α : Type} (m : Op σ α) (w : World σ) : α × World σ := m w

instance {σ : Type} : Monad (Op σ) where
  pure a := fun w => (a, w)
  bind m f := fun w => f (m w).1 (m w).2

/-- The pdfium calls among recorded calls, in order. -/
def libCalls (t : List Call) : List LibCall :=
  t.filterMap fun c => match c with
    | .lib c => some c
    | .jni _ => none

/-- Records the call `c` and asks the oracle `f` for its result. -/
def invoke {σ α : Type} (c : Call) (f : σ → α × σ) : Op σ α := fun w =>
  ((f w.st).1, { w with st := (f w.st).2, trace := w.trace ++ [c] })

/-- Records the call `c` of a function returning nothing. -/
def invokeVoid {σ : Type} (c : Call) (f : σ → σ) : Op σ Unit := fun w =>
  ((), { w with st := f w.st, trace := w.trace ++ [c] })

/-- Macro `LOGD`. -/
def LOGD {σ : Type} (fmt : String) : Op σ Unit := fun w =>
  ((), { w with log := w.log ++ [(Priority.debug, fmt)] })

/-- Macro `LOGE`. -/
def LOGE {σ : Type} (fmt : String) : Op σ Unit := fun w =>
  ((), { w with log := w.log ++ [(Priority.error, fmt)] })

/-! ## The pdfium library (`fpdfview.h`) as an oracle -/

/-- Entry points of pdfium used by the bridge.  Each takes the arguments passed by value
and the oracle state; an entry point with out-parameters also takes the values its
out-parameters hold before the call and returns the values they hold after it. -/
structure Pdfium (σ : Type) where
  /-- Width in bits of the typedef `FPDF_DWORD` of `fpdfview.h`, which pdfium declares as
  `unsigned long`: 32 bits on a 32-bit ABI, 64 bits on a 64-bit one. -/
  dwordBits : Nat
  FPDF_InitLibrary : σ → σ
  FPDF_DestroyLibrary : σ → σ
  FPDF_LoadDocument : Ptr → Ptr → σ → Ptr × σ
  FPDF_LoadMemDocument : Ptr → Int → Ptr → σ → Ptr × σ
  FPDF_GetLastError : σ → Nat × σ
  FPDF_CloseDocument : Ptr → σ → σ
  FPDF_GetPageCount : Ptr → σ → Int × σ
  FPDF_GetFileVersion : Ptr → Int → σ → (Int × Int) × σ
  FPDF_GetDocPermissions : Ptr → σ → Nat × σ
  FPDF_LoadPage : Ptr → Int → σ → Ptr × σ
  FPDF_ClosePage : Ptr → σ → σ
  FPDF_GetPageWidth : Ptr → σ → JDouble × σ
  FPDF_GetPageHeight : Ptr → σ → JDouble × σ
  FPDF_GetPageSizeByIndex : Ptr → Int → JDouble × JDouble → σ → (Int × JDouble × JDouble) × σ
  FPDFBitmap_Create : Int → Int → Int → σ → Ptr × σ
  FPDFBitmap_CreateEx : Int → Int → Int → Ptr → Int → σ → Ptr × σ
  FPDFBitmap_Destroy : Ptr → σ → σ
  FPDFBitmap_FillRect : Ptr → Int → Int → Int → Int → Int → σ → Int × σ
  FPDFBitmap_GetBuffer : Ptr → σ → Ptr × σ
  FPDFBitmap_GetWidth : Ptr → σ → Int × σ
  FPDFBitmap_GetHeight : Ptr → σ → Int × σ
  FPDFBitmap_GetStride : Ptr → σ → Int × σ
  FPDF_RenderPageBitmap : Ptr → Ptr → Int → Int → Int → Int → Int → Int → σ → σ
  FPDF_DeviceToPage : Ptr → Int → Int → Int → Int → Int → Int → Int → JDouble × JDouble → σ →
    (Int × JDouble × JDouble) × σ
  FPDF_PageToDevice : Ptr → Int → Int → Int → Int → Int → JDouble → JDouble → Int × Int → σ →
    (Int × Int × Int) × σ

section LibraryCalls
variable {σ : Type} (lib : Pdfium σ)

def FPDF_InitLibrary : Op σ Unit :=
  invokeVoid (.lib .FPDF_InitLibrary) lib.FPDF_InitLibrary

def FPDF_DestroyLibrary : Op σ Unit :=
  invokeVoid (.lib .FPDF_DestroyLibrary) lib.FPDF_DestroyLibrary

def FPDF_LoadDocument (file_path password : Ptr) : Op σ Ptr :=
  invoke (.lib (.FPDF_LoadDocument file_path password)) (lib.FPDF_LoadDocument file_path password)

def FPDF_LoadMemDocument (data_buf : Ptr) (size : Int) (password : Ptr) : Op σ Ptr :=
  invoke (.lib (.FPDF_LoadMemDocument data_buf size password))
    (lib.FPDF_LoadMemDocument data_buf size password)

def FPDF_GetLastError : Op σ Nat :=
  invoke (.lib .FPDF_GetLastError) lib.FPDF_GetLastError

def FPDF_CloseDocument (document : Ptr) : Op σ Unit :=
  invokeVoid (.lib (.FPDF_CloseDocument document)) (lib.FPDF_CloseDocument document)

def FPDF_GetPageCount (document : Ptr) : Op σ Int :=
  invoke (.lib (.FPDF_GetPageCount document)) (lib.FPDF_GetPageCount document)

def FPDF_GetFileVersion (document : Ptr) (fileVersion : Int) : Op σ (Int × Int) :=
  invoke (.lib (.FPDF_GetFileVersion document)) (lib.FPDF_GetFileVersion document fileVersion)

def FPDF_GetDocPermissions (document : Ptr) : Op σ Nat :=
  invoke (.lib (.FPDF_GetDocPermissions document)) (lib.FPDF_GetDocPermissions document)

def FPDF_LoadPage (document : Ptr) (page_index : Int) : Op σ Ptr :=
  invoke (.lib (.FPDF_LoadPage document page_index)) (lib.FPDF_LoadPage document page_index)

def FPDF_ClosePage (page : Ptr) : Op σ Unit :=
  invokeVoid (.lib (.FPDF_ClosePage page)) (lib.FPDF_ClosePage page)

def FPDF_GetPageWidth (page : Ptr) : Op σ JDouble :=
  invoke (.lib (.FPDF_GetPageWidth page)) (lib.FPDF_GetPageWidth page)

def FPDF_GetPageHeight (page : Ptr) : Op σ JDouble :=
  invoke (.lib (.FPDF_GetPageHeight page)) (lib.FPDF_GetPageHeight page)

def FPDF_GetPageSizeByIndex (document : Ptr) (page_index : Int) (out : JDouble × JDouble) :
    Op σ (Int × JDouble × JDouble) :=
  invoke (.lib (.FPDF_GetPageSizeByIndex document page_index))
    (lib.FPDF_GetPageSizeByIndex document page_index out)

def FPDFBitmap_Create (width height alpha : Int) : Op σ Ptr :=
  invoke (.lib (.FPDFBitmap_Create width height alpha)) (lib.FPDFBitmap_Create width height alpha)

def FPDFBitmap_CreateEx (width height format : Int) (first_scan : Ptr) (stride : Int) :
    Op σ Ptr :=
  invoke (.lib (.FPDFBitmap_CreateEx width height format first_scan stride))
    (lib.FPDFBitmap_CreateEx width height format first_scan stride)

def FPDFBitmap_Destroy (bitmap : Ptr) : Op σ Unit :=
  invokeVoid (.lib (.FPDFBitmap_Destroy bitmap)) (lib.FPDFBitmap_Destroy bitmap)

def FPDFBitmap_FillRect (bitmap : Ptr) (left top width height color : Int) : Op σ Int :=
  invoke (.lib (.FPDFBitmap_FillRect bitmap left top width height color))
    (lib.FPDFBitmap_FillRect bitmap left top width height color)

def FPDFBitmap_GetBuffer (bitmap : Ptr) : Op σ Ptr :=
  invoke (.lib (.FPDFBitmap_GetBuffer bitmap)) (lib.FPDFBitmap_GetBuffer bitmap)

def FPDFBitmap_GetWidth (bitmap : Ptr) : Op σ Int :=
  invoke (.lib (.FPDFBitmap_GetWidth bitmap)) (lib.FPDFBitmap_GetWidth bitmap)

def FPDFBitmap_GetHeight (bitmap : Ptr) : Op σ Int :=
  invoke (.lib (.FPDFBitmap_GetHeight bitmap)) (lib.FPDFBitmap_GetHeight bitmap)

def FPDFBitmap_GetStride (bitmap : Ptr) : Op σ Int :=
  invoke (.lib (.FPDFBitmap_GetStride bitmap)) (lib.FPDFBitmap_GetStride bitmap)

def FPDF_RenderPageBitmap (bitmap page : Ptr)
    (start_x start_y size_x size_y rotate flags : Int) : Op σ Unit :=
  invokeVoid (.lib (.FPDF_RenderPageBitmap bitmap page start_x start_y size_x size_y rotate flags))
    (lib.FPDF_RenderPageBitmap bitmap page start_x start_y size_x size_y rotate flags)

def FPDF_DeviceToPage (page : Ptr)
    (start_x start_y size_x size_y rotate device_x device_y : Int) (out : JDouble × JDouble) :
    Op σ (Int × JDouble × JDouble) :=
  invoke (.lib (.FPDF_DeviceToPage page start_x start_y size_x size_y rotate device_x device_y))
    (lib.FPDF_DeviceToPage page start_x start_y size_x size_y rotate device_x device_y out)

def FPDF_PageToDevice (page : Ptr)
    (start_x start_y size_x size_y rotate : Int) (page_x page_y : JDouble) (out : Int × Int) :
    Op σ (Int × Int × Int) :=
  invoke (.lib (.FPDF_PageToDevice page start_x start_y size_x size_y rotate page_x page_y))
    (lib.FPDF_PageToDevice page start_x start_y size_x size_y rotate page_x page_y out)

end LibraryCalls

/-! ## The JNI environment as an oracle -/

/-- Release mode `JNI_ABORT` of `jni.h`: free the buffer without copying back. -/
def JNI_ABORT : Int := 2

/-- Direct `java.nio.ByteBuffer`: a view of `capacity` bytes starting at `address`. -/
structure DirectByteBuffer where
  address : Ptr
  capacity : Int
  deriving DecidableEq, Repr

/-- Functions of `JNIEnv` used by the bridge.  The three allocating functions answer
whether the allocation succeeded; the object they return on success is built by the
wrappers below and is null otherwise. -/
structure JNIEnv (σ : Type) where
  GetStringUTFChars : JRef → σ → Ptr × σ
  ReleaseStringUTFChars : JRef → Ptr → σ → σ
  GetArrayLength : JRef → σ → Int × σ
  GetByteArrayElements : JRef → σ → Ptr × σ
  ReleaseByteArrayElements : JRef → Ptr → Int → σ → σ
  GetDirectBufferAddress : JRef → σ → Ptr × σ
  GetDirectBufferCapacity : JRef → σ → Int × σ
  NewDoubleArray : Int → σ → Bool × σ
  SetDoubleArrayRegion : Int → Int → List JDouble → σ → σ
  NewIntArray : Int → σ → Bool × σ
  SetIntArrayRegion : Int → Int → List Int → σ → σ
  NewDirectByteBuffer : Ptr → Int → σ → Bool × σ

/-- Contents of a Java array after `Set<Type>ArrayRegion(array, start, len, buf)`: the
`len` elements from `start` are overwritten from `buf`; a region that does not fit leaves
the array as it was. -/
def setRegion {α : Type} (array : List α) (start len : Int) (buf : List α) : List α :=
  if 0 ≤ start ∧ 0 ≤ len ∧ start + len ≤ array.length then
    array.take start.toNat ++ buf.take len.toNat ++ array.drop (start.toNat + len.toNat)
  else array

section EnvCalls
variable {σ : Type} (env : JNIEnv σ)

def GetStringUTFChars (string : JRef) : Op σ Ptr :=
  invoke (.jni (.GetStringUTFChars string)) (env.GetStringUTFChars string)

def ReleaseStringUTFChars (string : JRef) (utf : Ptr) : Op σ Unit :=
  invokeVoid (.jni (.ReleaseStringUTFChars string utf)) (env.ReleaseStringUTFChars string utf)

def GetArrayLength (array : JRef) : Op σ Int :=
  invoke (.jni (.GetArrayLength array)) (env.GetArrayLength array)

def GetByteArrayElements (array : JRef) : Op σ Ptr :=
  invoke (.jni (.GetByteArrayElements array)) (env.GetByteArrayElements array)

def ReleaseByteArrayElements (array : JRef) (elems : Ptr) (mode : Int) : Op σ Unit :=
  invokeVoid (.jni (.ReleaseByteArrayElements array elems mode))
    (env.ReleaseByteArrayElements array elems mode)

def GetDirectBufferAddress (buf : JRef) : Op σ Ptr :=
  invoke (.jni (.GetDirectBufferAddress buf)) (env.GetDirectBufferAddress buf)

def GetDirectBufferCapacity (buf : JRef) : Op σ Int :=
  invoke (.jni (.GetDirectBufferCapacity buf)) (env.GetDirectBufferCapacity buf)

def NewDoubleArray (length : Int) : Op σ (Option (List JDouble)) := do
  let ok ← invoke (.jni (.NewDoubleArray length)) (env.NewDoubleArray length)
  pure (if ok then some (List.replicate length.toNat JDouble.zero) else none)

def SetDoubleArrayRegion (array : List JDouble) (start len : Int) (buf : List JDouble) :
    Op σ (List JDouble) := do
  invokeVoid (.jni (.SetDoubleArrayRegion start len buf)) (env.SetDoubleArrayRegion start len buf)
  pure (setRegion array start len buf)

def NewIntArray (length : Int) : Op σ (Option (List Int)) := do
  let ok ← invoke (.jni (.NewIntArray length)) (env.NewIntArray length)
  pure (if ok then some (List.replicate length.toNat 0) else none)

def SetIntArrayRegion (array : List Int) (start len : Int) (buf : List Int) :
    Op σ (List Int) := do
  invokeVoid (.jni (.SetIntArrayRegion start len buf)) (env.SetIntArrayRegion start len buf)
  pure (setRegion array start len buf)

def NewDirectByteBuffer (address : Ptr) (capacity : Int) : Op σ (Option DirectByteBuffer) := do
  let ok ← invoke (.jni (.NewDirectByteBuffer address capacity))
    (env.NewDirectByteBuffer address capacity)
  pure (if ok then some ⟨address, capacity⟩ else none)

end EnvCalls

/-! ## The bridge: `pdfium_jni.cpp` -/

section Bridge
variable {σ : Type} (lib : Pdfium σ) (env : JNIEnv σ)

/-- Function `jstringToChar`. -/
def jstringToChar (jStr : Option JRef) : Op σ Ptr :=
  match jStr with
  | none => pure nullptr
  | some s => GetStringUTFChars env s

/-- Function `releaseString`. -/
def releaseString (jStr : Option JRef) (cStr : Ptr) : Op σ Unit :=
  match jStr with
  | none => pure ()
  | some s => if cStr ≠ nullptr then ReleaseStringUTFChars env s cStr else pure ()

/-- Export `Java_com_fcl_pdfium_1wrapper_PdfiumJNI_initLibrary`. -/
def initLibrary : Op σ Unit := do
  LOGD "Inicializando PDFium..."
  FPDF_InitLibrary lib
  LOGD "PDFium inicializado correctamente"

/-- Export `Java_com_fcl_pdfium_1wrapper_PdfiumJNI_destroyLibrary`. -/
def destroyLibrary : Op σ Unit := do
  LOGD "Destruyendo PDFium..."
  FPDF_DestroyLibrary lib
  LOGD "PDFium destruido correctamente"

/-- Export `Java_com_fcl_pdfium_1wrapper_PdfiumJNI_loadDocument`. -/
def loadDocument (filePath password : Option JRef) : Op σ Int := do
  let cFilePath ← jstringToChar env filePath
  let cPassword ← jstringToChar env password
  LOGD "Cargando documento: %s"
  let document ← FPDF_LoadDocument lib cFilePath cPassword
  if document = nullptr then do
    let _error ← FPDF_GetLastError lib
    LOGE "Error al cargar documento: %lu"
  else
    LOGD "Documento cargado exitosamente"
  releaseString env filePath cFilePath
  releaseString env password cPassword
  pure (TO_JLONG document)

/-- Export `Java_com_fcl_pdfium_1wrapper_PdfiumJNI_loadMemDocument___3BLjava_lang_String_2`,
the overload `loadMemDocument(byte[], String)`. -/
def loadMemDocument (data : Option JRef) (password : Option JRef) : Op σ Int :=
  match data with
  | none => do
    LOGE "loadMemDocument: data es null"
    pure 0
  | some data => do
    let dataLen ← GetArrayLength env data
    let dataPtr ← GetByteArrayElements env data
    let cPassword ← jstringToChar env password
    LOGD "Cargando documento desde memoria (%d bytes)"
    let document ← FPDF_LoadMemDocument lib dataPtr dataLen cPassword
    if document = nullptr then do
      let _error ← FPDF_GetLastError lib
      LOGE "Error al cargar documento desde memoria: %lu"
    else
      LOGD "Documento cargado exitosamente desde memoria"
    releaseString env password cPassword
    ReleaseByteArrayElements env data dataPtr JNI_ABORT
    pure (TO_JLONG document)

/-- Export
`Java_com_fcl_pdfium_1wrapper_PdfiumJNI_loadMemDocument__Ljava_nio_ByteBuffer_2Ljava_lang_String_2`,
the overload `loadMemDocument(ByteBuffer, String)`. -/
def loadMemDocumentBuffer (buffer : Option JRef) (password : Option JRef) : Op σ Int :=
  match buffer with
  | none => do
    LOGE "loadMemDocument: buffer es null"
    pure 0
  | some buffer => do
    let bufferPtr ← GetDirectBufferAddress env buffer
    let capacity ← GetDirectBufferCapacity env buffer
    if bufferPtr = nullptr ∨ capacity ≤ 0 then do
      LOGE "loadMemDocument: buffer inválido"
      pure 0
    else do
      let cPassword ← jstringToChar env password
      LOGD "Cargando documento desde ByteBuffer (%lld bytes)"
      let document ← FPDF_LoadMemDocument lib bufferPtr (wrapS 32 capacity) cPassword
      if document = nullptr then do
        let _error ← FPDF_GetLastError lib
        LOGE "Error al cargar documento desde ByteBuffer: %lu"
      else
        LOGD "Documento cargado exitosamente desde ByteBuffer"
      releaseString env password cPassword
      pure (TO_JLONG document)

/-- Export `Java_com_fcl_pdfium_1wrapper_PdfiumJNI_closeDocument`. -/
def closeDocument (document : Int) : Op σ Unit :=
  if document = 0 then
    LOGE "closeDocument: documento es null"
  else do
    LOGD "Cerrando documento"
    FPDF_CloseDocument lib (jlongToPtr document)

/-- Export `Java_com_fcl_pdfium_1wrapper_PdfiumJNI_getPageCount`. -/
def getPageCount (document : Int) : Op σ Int :=
  if document = 0 then do
    LOGE "getPageCount: documento es null"
    pure 0
  else do
    let count ← FPDF_GetPageCount lib (jlongToPtr document)
    LOGD "Número de páginas: %d"
    pure count

/-- Export `Java_com_fcl_pdfium_1wrapper_PdfiumJNI_getFileVersion`. -/
def getFileVersion (document : Int) : Op σ Int :=
  if document = 0 then do
    LOGE "getFileVersion: documento es null"
    pure (-1)
  else do
    let fileVersion : Int := 0
    let r ← FPDF_GetFileVersion lib (jlongToPtr document) fileVersion
    let fileVersion := r.2
    if r.1 ≠ 0 then do
      LOGD "Versión del archivo PDF: %d"
      pure fileVersion
    else do
      LOGE "Error al obtener versión del archivo"
      pure (-1)

/-- Export `Java_com_fcl_pdfium_1wrapper_PdfiumJNI_getDocPermissions`. -/
def getDocPermissions (document : Int) : Op σ Int :=
  if document = 0 then do
    LOGE "getDocPermissions: documento es null"
    pure 0
  else do
    let permissions ← FPDF_GetDocPermissions lib (jlongToPtr document)
    LOGD "Permisos del documento: %lu"
    pure (wrapS 64 (permissions : Int))

/-- Constant `FPDF_ERR_SUCCESS` of `fpdfview.h`. -/
def FPDF_ERR_SUCCESS : Nat := 0

/-- Export `Java_com_fcl_pdfium_1wrapper_PdfiumJNI_getLastError`. -/
def getLastError : Op σ Int := do
  let error ← FPDF_GetLastError lib
  if error ≠ FPDF_ERR_SUCCESS then
    LOGE "Último error de PDFium: %lu"
  else
    pure ()
  pure (wrapS 32 (error : Int))

/-- Export `Java_com_fcl_pdfium_1wrapper_PdfiumJNI_loadPage`. -/
def loadPage (document : Int) (pageIndex : Int) : Op σ Int :=
  if document = 0 then do
    LOGE "loadPage: documento es null"
    pure 0
  else do
    LOGD "Cargando página %d"
    let page ← FPDF_LoadPage lib (jlongToPtr document) pageIndex
    if page = nullptr then do
      let _error ← FPDF_GetLastError lib
      LOGE "Error al cargar página %d: %lu"
    else
      LOGD "Página %d cargada exitosamente"
    pure (TO_JLONG page)

/-- Export `Java_com_fcl_pdfium_1wrapper_PdfiumJNI_closePage`. -/
def closePage (page : Int) : Op σ Unit :=
  if page = 0 then
    LOGE "closePage: página es null"
  else do
    LOGD "Cerrando página"
    FPDF_ClosePage lib (jlongToPtr page)

/-- Export `Java_com_fcl_pdfium_1wrapper_PdfiumJNI_getPageWidth`. -/
def getPageWidth (page : Int) : Op σ JDouble :=
  if page = 0 then do
    LOGE "getPageWidth: página es null"
    pure JDouble.zero
  else do
    let width ← FPDF_GetPageWidth lib (jlongToPtr page)
    LOGD "Ancho de página: %.2f"
    pure width

/-- Export `Java_com_fcl_pdfium_1wrapper_PdfiumJNI_getPageHeight`. -/
def getPageHeight (page : Int) : Op σ JDouble :=
  if page = 0 then do
    LOGE "getPageHeight: página es null"
    pure JDouble.zero
  else do
    let height ← FPDF_GetPageHeight lib (jlongToPtr page)
    LOGD "Alto de página: %.2f"
    pure height

/-- Export `Java_com_fcl_pdfium_1wrapper_PdfiumJNI_getPageSizeByIndex`. -/
def getPageSizeByIndex (document : Int) (pageIndex : Int) : Op σ (Option (List JDouble)) :=
  if document = 0 then do
    LOGE "getPageSizeByIndex: documento es null"
    pure none
  else do
    let width := JDouble.zero
    let height := JDouble.zero
    let r ← FPDF_GetPageSizeByIndex lib (jlongToPtr document) pageIndex (width, height)
    let result := r.1
    let width := r.2.1
    let height := r.2.2
    if result = 0 then do
      LOGE "Error al obtener tamaño de página %d"
      pure none
    else do
      LOGD "Tamaño de página %d: %.2fx%.2f"
      let jArray ← NewDoubleArray env 2
      match jArray with
      | none => do
        LOGE "Error al crear array de doubles"
        pure none
      | some jArray => do
        let temp := [width, height]
        let jArray ← SetDoubleArrayRegion env jArray 0 2 temp
        pure (some jArray)

/-- Export `Java_com_fcl_pdfium_1wrapper_PdfiumJNI_destroyBitmap`. -/
def destroyBitmap (bitmap : Int) : Op σ Unit :=
  if bitmap = 0 then
    LOGE "destroyBitmap: bitmap es null"
  else do
    LOGD "Destruyendo bitmap"
    FPDFBitmap_Destroy lib (jlongToPtr bitmap)

/-- Export `Java_com_fcl_pdfium_1wrapper_PdfiumJNI_fillRect`. -/
def fillRect (bitmap : Int) (left top width height color : Int) : Op σ Bool :=
  if bitmap = 0 then do
    LOGE "fillRect: bitmap es null"
    pure false
  else do
    LOGD "Llenando rectángulo: (%d,%d) %dx%d, color=0x%08X"
    let result ← FPDFBitmap_FillRect lib (jlongToPtr bitmap) left top width height
      (wrapU lib.dwordBits color)
    pure (if result ≠ 0 then true else false)

/-- Export `Java_com_fcl_pdfium_1wrapper_PdfiumJNI_getBitmapBuffer`. -/
def getBitmapBuffer (bitmap : Int) : Op σ (Option DirectByteBuffer) :=
  if bitmap = 0 then do
    LOGE "getBitmapBuffer: bitmap es null"
    pure none
  else do
    let buffer ← FPDFBitmap_GetBuffer lib (jlongToPtr bitmap)
    if buffer = nullptr then do
      LOGE "Error al obtener buffer del bitmap"
      pure none
    else do
      let _width ← FPDFBitmap_GetWidth lib (jlongToPtr bitmap)
      let height ← FPDFBitmap_GetHeight lib (jlongToPtr bitmap)
      let stride ← FPDFBitmap_GetStride lib (jlongToPtr bitmap)
      let capacity := wrapS 64 (wrapS 64 stride * wrapS 64 height)
      LOGD "Buffer del bitmap: %dx%d, stride=%d, capacity=%lld"
      NewDirectByteBuffer env buffer capacity

/-- Export `Java_com_fcl_pdfium_1wrapper_PdfiumJNI_getBitmapStride`. -/
def getBitmapStride (bitmap : Int) : Op σ Int :=
  if bitmap = 0 then do
    LOGE "getBitmapStride: bitmap es null"
    pure 0
  else do
    let stride ← FPDFBitmap_GetStride lib (jlongToPtr bitmap)
    LOGD "Stride del bitmap: %d"
    pure stride

/-- Export `Java_com_fcl_pdfium_1wrapper_PdfiumJNI_getBitmapWidth`. -/
def getBitmapWidth (bitmap : Int) : Op σ Int :=
  if bitmap = 0 then do
    LOGE "getBitmapWidth: bitmap es null"
    pure 0
  else do
    let width ← FPDFBitmap_GetWidth lib (jlongToPtr bitmap)
    LOGD "Ancho del bitmap: %d"
    pure width

/-- Export `Java_com_fcl_pdfium_1wrapper_PdfiumJNI_getBitmapHeight`. -/
def getBitmapHeight (bitmap : Int) : Op σ Int :=
  if bitmap = 0 then do
    LOGE "getBitmapHeight: bitmap es null"
    pure 0
  else do
    let height ← FPDFBitmap_GetHeight lib (jlongToPtr bitmap)
    LOGD "Alto del bitmap: %d"
    pure height

/-- Export `Java_com_fcl_pdfium_1wrapper_PdfiumJNI_renderPageBitmap`. -/
def renderPageBitmap (bitmap page : Int) (startX startY sizeX sizeY rotate flags : Int) :
    Op σ Unit :=
  if bitmap = 0 ∨ page = 0 then
    LOGE "renderPageBitmap: bitmap o página es null"
  else do
    LOGD "Renderizando página: start=(%d,%d), size=(%dx%d), rotate=%d, flags=0x%X"
    FPDF_RenderPageBitmap lib (jlongToPtr bitmap) (jlongToPtr page)
      startX startY sizeX sizeY rotate flags
    LOGD "Página renderizada exitosamente"

/-- Export `Java_com_fcl_pdfium_1wrapper_PdfiumJNI_deviceToPage`. -/
def deviceToPage (page : Int) (startX startY sizeX sizeY rotate deviceX deviceY : Int) :
    Op σ (Option (List JDouble)) :=
  if page = 0 then do
    LOGE "deviceToPage: página es null"
    pure none
  else do
    let pageX := JDouble.zero
    let pageY := JDouble.zero
    let r ← FPDF_DeviceToPage lib (jlongToPtr page) startX startY sizeX sizeY rotate
      deviceX deviceY (pageX, pageY)
    let result := r.1
    let pageX := r.2.1
    let pageY := r.2.2
    if result = 0 then do
      LOGE "Error en conversión deviceToPage"
      pure none
    else do
      LOGD "deviceToPage: device=(%d,%d) -> page=(%.2f,%.2f)"
      let jArray ← NewDoubleArray env 2
      match jArray with
      | none => do
        LOGE "Error al crear array de doubles"
        pure none
      | some jArray => do
        let temp := [pageX, pageY]
        let jArray ← SetDoubleArrayRegion env jArray 0 2 temp
        pure (some jArray)

/-- Export `Java_com_fcl_pdfium_1wrapper_PdfiumJNI_pageToDevice`. -/
def pageToDevice (page : Int) (startX startY sizeX sizeY rotate : Int) (pageX pageY : JDouble) :
    Op σ (Option (List Int)) :=
  if page = 0 then do
    LOGE "pageToDevice: página es null"
    pure none
  else do
    let deviceX : Int := 0
    let deviceY : Int := 0
    let r ← FPDF_PageToDevice lib (jlongToPtr page) startX startY sizeX sizeY rotate
      pageX pageY (deviceX, deviceY)
    let result := r.1
    let deviceX := r.2.1
    let deviceY := r.2.2
    if result = 0 then do
      LOGE "Error en conversión pageToDevice"
      pure none
    else do
      LOGD "pageToDevice: page=(%.2f,%.2f) -> device=(%d,%d)"
      let jArray ← NewIntArray env 2
      match jArray with
      | none => do
        LOGE "Error al crear array de ints"
        pure none
      | some jArray => do
        let temp := [deviceX, deviceY]
        let jArray ← SetIntArrayRegion env jArray 0 2 temp
        pure (some jArray)

end Bridge

/-! ## Vocabulary of the statements -/

/-- Running `m` from `w` returns `a` and makes no call at all, neither into pdfium nor into
the JNI environment: the trace of calls and the state of the oracles are those of `w`. -/
def Silent {σ α : Type} (m : Op σ α) (w : World σ) (a : α) : Prop :=
  (m.run w).1 = a ∧ (m.run w).2.trace = w.trace ∧ (m.run w).2.st = w.st

/-- What `jstringToChar` obtains for `jStr` when the environment is in state `s`: the null
pointer and the same state for a null string, the answer of `GetStringUTFChars` otherwise. -/
def utfChars {σ : Type} (env : JNIEnv σ) (jStr : Option JRef) (s : σ) : Ptr × σ :=
  match jStr with
  | none => (nullptr, s)
  | some r => env.GetStringUTFChars r s

/-- JNI calls `jstringToChar` makes for `jStr`: none for a null string, one
`GetStringUTFChars` otherwise. -/
def acquireCalls (jStr : Option JRef) : List Call :=
  match jStr with
  | none => []
  | some r => [Call.jni (JniCall.GetStringUTFChars r)]

/-- JNI calls `releaseString` makes for `jStr` and the characters `cStr` obtained for it:
one `ReleaseStringUTFChars` of exactly these characters when the string is not null and
characters were obtained, none otherwise. -/
def releaseCalls (jStr : Option JRef) (cStr : Ptr) : List Call :=
  match jStr with
  | none => []
  | some r => if cStr ≠ nullptr then [Call.jni (JniCall.ReleaseStringUTFChars r cStr)] else []

/-- State of the environment after `releaseString`. -/
def releaseState {σ : Type} (env : JNIEnv σ) (jStr : Option JRef) (cStr : Ptr) (s : σ) : σ :=
  match jStr with
  | none => s
  | some r => if cStr ≠ nullptr then env.ReleaseStringUTFChars r cStr s else s

/-- Calls that follow a load returning `p`: one `FPDF_GetLastError` when `p` is null, none
otherwise. -/
def lastErrorCalls (p : Ptr) : List Call :=
  if p = nullptr then [Call.lib LibCall.FPDF_GetLastError] else []

/-- Running `m` from `w` adds to the pdfium calls exactly the load call `c`, followed by one
`FPDF_GetLastError` when the pointer `p` that call returned is null and by nothing
otherwise, and returns the handle `TO_JLONG p`. -/
def LoadsOnce {σ : Type} (m : Op σ Int) (w : World σ) (c : LibCall) (p : Ptr) : Prop :=
  libCalls (m.run w).2.trace =
      libCalls w.trace ++ c :: (if p = nullptr then [LibCall.FPDF_GetLastError] else [])
    ∧ (m.run w).1 = TO_JLONG p

/-- State of the oracles after the call `c` is made from state `s`: the oracle of the entry
point that `c` names, applied to the arguments that `c` records.  For the four pdfium
entry points with out-parameters, the out-parameters hold the zeros the bridge initialises
them with. -/
def applyCall {σ : Type} (lib : Pdfium σ) (env : JNIEnv σ) (c : Call) (s : σ) : σ :=
  match c with
  | .lib .FPDF_InitLibrary => lib.FPDF_InitLibrary s
  | .lib .FPDF_DestroyLibrary => lib.FPDF_DestroyLibrary s
  | .lib (.FPDF_LoadDocument a b) => (lib.FPDF_LoadDocument a b s).2
  | .lib (.FPDF_LoadMemDocument a n b) => (lib.FPDF_LoadMemDocument a n b s).2
  | .lib .FPDF_GetLastError => (lib.FPDF_GetLastError s).2
  | .lib (.FPDF_CloseDocument d) => lib.FPDF_CloseDocument d s
  | .lib (.FPDF_GetPageCount d) => (lib.FPDF_GetPageCount d s).2
  | .lib (.FPDF_GetFileVersion d) => (lib.FPDF_GetFileVersion d 0 s).2
  | .lib (.FPDF_GetDocPermissions d) => (lib.FPDF_GetDocPermissions d s).2
  | .lib (.FPDF_LoadPage d i) => (lib.FPDF_LoadPage d i s).2
  | .lib (.FPDF_ClosePage p) => lib.FPDF_ClosePage p s
  | .lib (.FPDF_GetPageWidth p) => (lib.FPDF_GetPageWidth p s).2
  | .lib (.FPDF_GetPageHeight p) => (lib.FPDF_GetPageHeight p s).2
  | .lib (.FPDF_GetPageSizeByIndex d i) =>
    (lib.FPDF_GetPageSizeByIndex d i (JDouble.zero, JDouble.zero) s).2
  | .lib (.FPDFBitmap_Create w h a) => (lib.FPDFBitmap_Create w h a s).2
  | .lib (.FPDFBitmap_CreateEx w h f b n) => (lib.FPDFBitmap_CreateEx w h f b n s).2
  | .lib (.FPDFBitmap_Destroy b) => lib.FPDFBitmap_Destroy b s
  | .lib (.FPDFBitmap_FillRect b l t w h c) => (lib.FPDFBitmap_FillRect b l t w h c s).2
  | .lib (.FPDFBitmap_GetBuffer b) => (lib.FPDFBitmap_GetBuffer b s).2
  | .lib (.FPDFBitmap_GetWidth b) => (lib.FPDFBitmap_GetWidth b s).2
  | .lib (.FPDFBitmap_GetHeight b) => (lib.FPDFBitmap_GetHeight b s).2
  | .lib (.FPDFBitmap_GetStride b) => (lib.FPDFBitmap_GetStride b s).2
  | .lib (.FPDF_RenderPageBitmap b p x y sx sy r f) =>
    lib.FPDF_RenderPageBitmap b p x y sx sy r f s
  | .lib (.FPDF_DeviceToPage p x y sx sy r dx dy) =>
    (lib.FPDF_DeviceToPage p x y sx sy r dx dy (JDouble.zero, JDouble.zero) s).2
  | .lib (.FPDF_PageToDevice p x y sx sy r px py) =>
    (lib.FPDF_PageToDevice p x y sx sy r px py (0, 0) s).2
  | .jni (.GetStringUTFChars r) => (env.GetStringUTFChars r s).2
  | .jni (.ReleaseStringUTFChars r c) => env.ReleaseStringUTFChars r c s
  | .jni (.GetArrayLength a) => (env.GetArrayLength a s).2
  | .jni (.GetByteArrayElements a) => (env.GetByteArrayElements a s).2
  | .jni (.ReleaseByteArrayElements a e m) => env.ReleaseByteArrayElements a e m s
  | .jni (.GetDirectBufferAddress b) => (env.GetDirectBufferAddress b s).2
  | .jni (.GetDirectBufferCapacity b) => (env.GetDirectBufferCapacity b s).2
  | .jni (.NewDoubleArray n) => (env.NewDoubleArray n s).2
  | .jni (.SetDoubleArrayRegion a n b) => env.SetDoubleArrayRegion a n b s
  | .jni (.NewIntArray n) => (env.NewIntArray n s).2
  | .jni (.SetIntArrayRegion a n b) => env.SetIntArrayRegion a n b s
  | .jni (.NewDirectByteBuffer a n) => (env.NewDirectByteBuffer a n s).2

/-- State of the oracles after the calls `cs` are made one after the other from `s`. -/
def replay {σ : Type} (lib : Pdfium σ) (env : JNIEnv σ) (cs : List Call) (s : σ) : σ :=
  cs.foldl (fun s c => applyCall lib env c s) s

/-- Every call that running `m` from `w` records was made: the state of the oracles after
the run is the state in which the recorded calls, made in the recorded order from the
state of `w`, leave the oracles. -/
def Faithful {σ α : Type} (lib : Pdfium σ) (env : JNIEnv σ) (m : Op σ α) (w : World σ) :
    Prop :=
  ∃ calls : List Call, (m.run w).2.trace = w.trace ++ calls
    ∧ (m.run w).2.st = replay lib env calls w.st

/-- Answer of `FPDFBitmap_GetBuffer`, the first query of `getBitmapBuffer`, from state `s`. -/
def bufferOf {σ : Type} (lib : Pdfium σ) (bitmap : Int) (s : σ) : Ptr × σ :=
  lib.FPDFBitmap_GetBuffer (jlongToPtr bitmap) s

/-- Answer of `FPDFBitmap_GetWidth`, the second query of `getBitmapBuffer`. -/
def widthOf {σ : Type} (lib : Pdfium σ) (bitmap : Int) (s : σ) : Int × σ :=
  lib.FPDFBitmap_GetWidth (jlongToPtr bitmap) (bufferOf lib bitmap s).2

/-- Answer of `FPDFBitmap_GetHeight`, the third query of `getBitmapBuffer`. -/
def heightOf {σ : Type} (lib : Pdfium σ) (bitmap : Int) (s : σ) : Int × σ :=
  lib.FPDFBitmap_GetHeight (jlongToPtr bitmap) (widthOf lib bitmap s).2

/-- Answer of `FPDFBitmap_GetStride`, the fourth query of `getBitmapBuffer`. -/
def strideOf {σ : Type} (lib : Pdfium σ) (bitmap : Int) (s : σ) : Int × σ :=
  lib.FPDFBitmap_GetStride (jlongToPtr bitmap) (heightOf lib bitmap s).2

/-- A value of the type `int`: a signed 32-bit integer. -/
def IsInt32 (x : Int) : Prop := -2 ^ 31 ≤ x ∧ x < 2 ^ 31

/-! ## Stand-ins for the oracles -/

/-- A pdfium stand-in whose state counts the calls made to it.  Every entry point that
returns a pointer returns `p`, every entry point that returns an `int` or `FPDF_BOOL`
returns `n`; the out-parameters are set to fixed values. -/
def stubLib (dword : Nat) (p : Ptr) (n : Int) : Pdfium Nat where
  dwordBits := dword
  FPDF_InitLibrary := fun s => s + 1
  FPDF_DestroyLibrary := fun s => s + 1
  FPDF_LoadDocument := fun _ _ s => (p, s + 1)
  FPDF_LoadMemDocument := fun _ _ _ s => (p, s + 1)
  FPDF_GetLastError := fun s => (3, s + 1)
  FPDF_CloseDocument := fun _ s => s + 1
  FPDF_GetPageCount := fun _ s => (n, s + 1)
  FPDF_GetFileVersion := fun _ _ s => ((n, 17), s + 1)
  FPDF_GetDocPermissions := fun _ s => (4294967292, s + 1)
  FPDF_LoadPage := fun _ _ s => (p, s + 1)
  FPDF_ClosePage := fun _ s => s + 1
  FPDF_GetPageWidth := fun _ s => (⟨612⟩, s + 1)
  FPDF_GetPageHeight := fun _ s => (⟨792⟩, s + 1)
  FPDF_GetPageSizeByIndex := fun _ _ _ s => ((n, ⟨612⟩, ⟨792⟩), s + 1)
  FPDFBitmap_Create := fun _ _ _ s => (p, s + 1)
  FPDFBitmap_CreateEx := fun _ _ _ _ _ s => (p, s + 1)
  FPDFBitmap_Destroy := fun _ s => s + 1
  FPDFBitmap_FillRect := fun _ _ _ _ _ _ s => (n, s + 1)
  FPDFBitmap_GetBuffer := fun _ s => (p, s + 1)
  FPDFBitmap_GetWidth := fun _ s => (10, s + 1)
  FPDFBitmap_GetHeight := fun _ s => (n, s + 1)
  FPDFBitmap_GetStride := fun _ s => (40, s + 1)
  FPDF_RenderPageBitmap := fun _ _ _ _ _ _ _ _ s => s + 1
  FPDF_DeviceToPage := fun _ _ _ _ _ _ _ _ _ s => ((n, ⟨100⟩, ⟨200⟩), s + 1)
  FPDF_PageToDevice := fun _ _ _ _ _ _ _ _ _ s => ((n, 30, 40), s + 1)

/-- A JNI stand-in over the same counter.  Every function that returns a pointer returns
`p`, `GetArrayLength` and `GetDirectBufferCapacity` return `n`, except that the object 0 is
not a direct buffer and has capacity -1, and the allocating functions succeed exactly
when `ok` is true. -/
def stubEnv (p : Ptr) (n : Int) (ok : Bool) : JNIEnv Nat where
  GetStringUTFChars := fun _ s => (p, s + 1)
  ReleaseStringUTFChars := fun _ _ s => s + 1
  GetArrayLength := fun _ s => (n, s + 1)
  GetByteArrayElements := fun _ s => (p, s + 1)
  ReleaseByteArrayElements := fun _ _ _ s => s + 1
  GetDirectBufferAddress := fun _ s => (p, s + 1)
  GetDirectBufferCapacity := fun buf s => (if buf = 0 then -1 else n, s + 1)
  NewDoubleArray := fun _ s => (ok, s + 1)
  SetDoubleArrayRegion := fun _ _ _ s => s + 1
  NewIntArray := fun _ s => (ok, s + 1)
  SetIntArrayRegion := fun _ _ _ s => s + 1
  NewDirectByteBuffer := fun _ _ s => (ok, s + 1)

/-- The world before any call. -/
def world0 : World Nat := ⟨0, [], []⟩

/-! ## Evaluation lemmas -/

section Eval
variable {σ : Type}

@[simp] theorem pure_apply {α : Type} (a : α) (w : World σ) :
    (pure a : Op σ α) w = (a, w) := rfl

@[simp] theorem bind_apply {α β : Type} (m : Op σ α) (f : α → Op σ β) (w : World σ) :
    (m >>= f) w = f (m w).1 (m w).2 := rfl

@[simp] theorem invoke_apply {α : Type} (c : Call) (f : σ → α × σ) (w : World σ) :
    invoke c f w = ((f w.st).1, { w with st := (f w.st).2, trace := w.trace ++ [c] }) := rfl

@[simp] theorem invokeVoid_apply (c : Call) (f : σ → σ) (w : World σ) :
    invokeVoid c f w = ((), { w with st := f w.st, trace := w.trace ++ [c] }) := rfl

@[simp] theorem LOGD_apply (fmt : String) (w : World σ) :
    LOGD fmt w = ((), { w with log := w.log ++ [(Priority.debug, fmt)] }) := rfl

@[simp] theorem LOGE_apply (fmt : String) (w : World σ) :
    LOGE fmt w = ((), { w with log := w.log ++ [(Priority.error, fmt)] }) := rfl

@[simp] theorem ite_op_apply {α : Type} (c : Prop) [Decidable c] (a b : Op σ α) (w : World σ) :
    (if c then a else b) w = if c then a w else b w := by
  split <;> rfl

@[simp] theorem jstringToChar_apply (env : JNIEnv σ) (jStr : Option JRef) (w : World σ) :
    jstringToChar env jStr w =
      ((utfChars env jStr w.st).1,
        { w with st := (utfChars env jStr w.st).2, trace := w.trace ++ acquireCalls jStr }) := by
  cases jStr <;> simp [jstringToChar, utfChars, acquireCalls, GetStringUTFChars]

@[simp] theorem releaseString_apply (env : JNIEnv σ) (jStr : Option JRef) (cStr : Ptr)
    (w : World σ) :
    releaseString env jStr cStr w =
      ((), { w with st := releaseState env jStr cStr w.st,
                    trace := w.trace ++ releaseCalls jStr cStr }) := by
  cases jStr
  · simp [releaseString, releaseState, releaseCalls]
  · by_cases h : cStr = nullptr <;>
      simp [releaseString, releaseState, releaseCalls, ReleaseStringUTFChars, h]

@[simp] theorem libCalls_acquireCalls (jStr : Option JRef) : libCalls (acquireCalls jStr) = [] := by
  cases jStr <;> simp [acquireCalls, libCalls]

@[simp] theorem libCalls_releaseCalls (jStr : Option JRef) (cStr : Ptr) :
    libCalls (releaseCalls jStr cStr) = [] := by
  cases jStr
  · simp [releaseCalls, libCalls]
  · by_cases h : cStr = nullptr <;> simp [releaseCalls, libCalls, h]

@[simp] theorem libCalls_nil : libCalls [] = [] := rfl

@[simp] theorem libCalls_append (s t : List Call) :
    libCalls (s ++ t) = libCalls s ++ libCalls t := by
  simp [libCalls, List.filterMap_append]

@[simp] theorem libCalls_lib (c : LibCall) (t : List Call) :
    libCalls (Call.lib c :: t) = c :: libCalls t := by
  simp [libCalls, List.filterMap_cons]

@[simp] theorem libCalls_jni (c : JniCall) (t : List Call) :
    libCalls (Call.jni c :: t) = libCalls t := by
  simp [libCalls, List.filterMap_cons]

@[simp] theorem replay_nil (lib : Pdfium σ) (env : JNIEnv σ) (s : σ) :
    replay lib env [] s = s := rfl

@[simp] theorem replay_cons (lib : Pdfium σ) (env : JNIEnv σ) (c : Call) (cs : List Call)
    (s : σ) : replay lib env (c :: cs) s = replay lib env cs (applyCall lib env c s) := rfl

@[simp] theorem replay_append (lib : Pdfium σ) (env : JNIEnv σ) (cs ds : List Call) (s : σ) :
    replay lib env (cs ++ ds) s = replay lib env ds (replay lib env cs s) := by
  simp [replay, List.foldl_append]

@[simp] theorem replay_acquireCalls (lib : Pdfium σ) (env : JNIEnv σ) (jStr : Option JRef)
    (s : σ) : replay lib env (acquireCalls jStr) s = (utfChars env jStr s).2 := by
  cases jStr <;> rfl

@[simp] theorem replay_releaseCalls (lib : Pdfium σ) (env : JNIEnv σ) (jStr : Option JRef)
    (cStr : Ptr) (s : σ) :
    replay lib env (releaseCalls jStr cStr) s = releaseState env jStr cStr s := by
  cases jStr
  · rfl
  · by_cases h : cStr = nullptr <;> simp [releaseCalls, releaseState, h, applyCall]

theorem replay_lastErrorCalls (lib : Pdfium σ) (env : JNIEnv σ) (p : Ptr) (s : σ) :
    replay lib env (lastErrorCalls p) s =
      if p = nullptr then (lib.FPDF_GetLastError s).2 else s := by
  by_cases h : p = nullptr <;> simp [lastErrorCalls, h, applyCall]

end Eval

section Claims
variable {σ : Type}

/-! ## Zero handles -/

/-- C1: every exported operation that takes a handle, called with the handle 0 (for
`renderPageBitmap`: with the bitmap handle 0 or with the page handle 0) and any other
arguments, returns its sentinel and makes no call: the trace of calls and the state of the
oracles are left as they were, so in particular no call into pdfium is recorded.
The sentinels are nothing for close/destroy/render, 0 for `getPageCount`,
`getDocPermissions`, `loadPage`, `getBitmapStride/Width/Height`, -1 for `getFileVersion`,
0.0 for `getPageWidth/Height`, false for `fillRect`, and null for `getPageSizeByIndex`,
`getBitmapBuffer`, `deviceToPage` and `pageToDevice`. -/
theorem zero_handle_returns_sentinel_without_calls (lib : Pdfium σ) (env : JNIEnv σ)
    (w : World σ) (other : Int) (a b c d e f g : Int) (x y : JDouble) :
    Silent (closeDocument lib 0) w ()
    ∧ Silent (getPageCount lib 0) w 0
    ∧ Silent (getFileVersion lib 0) w (-1)
    ∧ Silent (getDocPermissions lib 0) w 0
    ∧ Silent (loadPage lib 0 a) w 0
    ∧ Silent (closePage lib 0) w ()
    ∧ Silent (getPageWidth lib 0) w JDouble.zero
    ∧ Silent (getPageHeight lib 0) w JDouble.zero
    ∧ Silent (getPageSizeByIndex lib env 0 a) w none
    ∧ Silent (destroyBitmap lib 0) w ()
    ∧ Silent (fillRect lib 0 a b c d e) w false
    ∧ Silent (getBitmapBuffer lib env 0) w none
    ∧ Silent (getBitmapStride lib 0) w 0
    ∧ Silent (getBitmapWidth lib 0) w 0
    ∧ Silent (getBitmapHeight lib 0) w 0
    ∧ Silent (renderPageBitmap lib 0 other a b c d e f) w ()
    ∧ Silent (renderPageBitmap lib other 0 a b c d e f) w ()
    ∧ Silent (deviceToPage lib env 0 a b c d e f g) w none
    ∧ Silent (pageToDevice lib env 0 a b c d e x y) w none := by
  simp [Silent, Op.run, closeDocument, getPageCount, getFileVersion, getDocPermissions,
    loadPage, closePage, getPageWidth, getPageHeight, getPageSizeByIndex, destroyBitmap,
    fillRect, getBitmapBuffer, getBitmapStride, getBitmapWidth, getBitmapHeight,
    renderPageBitmap, deviceToPage, pageToDevice]

/-! ## Handles -/

theorem TO_JLONG_eq_zero_iff (p : Ptr) : TO_JLONG p = 0 ↔ p = nullptr := by
  have hp := p.isLt
  constructor
  · intro h
    apply Fin.ext
    unfold TO_JLONG wrapS at h
    simp only [nullptr, Fin.val_zero]
    split at h <;> omega
  · intro h
    subst h
    decide

theorem jlongToPtr_TO_JLONG (p : Ptr) : jlongToPtr (TO_JLONG p) = p := by
  have hp := p.isLt
  apply Fin.ext
  unfold jlongToPtr TO_JLONG wrapS wrapU
  simp only []
  split <;> omega

theorem wrapU_TO_JLONG (p : Ptr) : wrapU 64 (TO_JLONG p) = (p.val : Int) := by
  have hp := p.isLt
  unfold TO_JLONG wrapS wrapU
  split <;> omega

/-! ## The load operations, call by call -/

theorem loadDocument_trace (lib : Pdfium σ) (env : JNIEnv σ) (w : World σ)
    (filePath password : Option JRef) :
    ((loadDocument lib env filePath password).run w).2.trace =
        w.trace ++ acquireCalls filePath ++ acquireCalls password
          ++ [Call.lib (LibCall.FPDF_LoadDocument (utfChars env filePath w.st).1
                (utfChars env password (utfChars env filePath w.st).2).1)]
          ++ lastErrorCalls (lib.FPDF_LoadDocument (utfChars env filePath w.st).1
                (utfChars env password (utfChars env filePath w.st).2).1
                (utfChars env password (utfChars env filePath w.st).2).2).1
          ++ releaseCalls filePath (utfChars env filePath w.st).1
          ++ releaseCalls password (utfChars env password (utfChars env filePath w.st).2).1
      ∧ ((loadDocument lib env filePath password).run w).1 =
        TO_JLONG (lib.FPDF_LoadDocument (utfChars env filePath w.st).1
                (utfChars env password (utfChars env filePath w.st).2).1
                (utfChars env password (utfChars env filePath w.st).2).2).1 := by
  simp only [Op.run, loadDocument, FPDF_LoadDocument, FPDF_GetLastError, lastErrorCalls,
    bind_apply, jstringToChar_apply, releaseString_apply, LOGD_apply, LOGE_apply, invoke_apply,
    ite_op_apply, pure_apply]
  split <;> simp

theorem loadMemDocument_trace (lib : Pdfium σ) (env : JNIEnv σ) (w : World σ)
    (data : JRef) (password : Option JRef) :
    ((loadMemDocument lib env (some data) password).run w).2.trace =
        w.trace ++ [Call.jni (JniCall.GetArrayLength data),
            Call.jni (JniCall.GetByteArrayElements data)]
          ++ acquireCalls password
          ++ [Call.lib (LibCall.FPDF_LoadMemDocument
                (env.GetByteArrayElements data (env.GetArrayLength data w.st).2).1
                (env.GetArrayLength data w.st).1
                (utfChars env password
                  (env.GetByteArrayElements data (env.GetArrayLength data w.st).2).2).1)]
          ++ lastErrorCalls (lib.FPDF_LoadMemDocument
                (env.GetByteArrayElements data (env.GetArrayLength data w.st).2).1
                (env.GetArrayLength data w.st).1
                (utfChars env password
                  (env.GetByteArrayElements data (env.GetArrayLength data w.st).2).2).1
                (utfChars env password
                  (env.GetByteArrayElements data (env.GetArrayLength data w.st).2).2).2).1
          ++ releaseCalls password (utfChars env password
                (env.GetByteArrayElements data (env.GetArrayLength data w.st).2).2).1
          ++ [Call.jni (JniCall.ReleaseByteArrayElements data
                (env.GetByteArrayElements data (env.GetArrayLength data w.st).2).1 JNI_ABORT)]
      ∧ ((loadMemDocument lib env (some data) password).run w).1 =
        TO_JLONG (lib.FPDF_LoadMemDocument
                (env.GetByteArrayElements data (env.GetArrayLength data w.st).2).1
                (env.GetArrayLength data w.st).1
                (utfChars env password
                  (env.GetByteArrayElements data (env.GetArrayLength data w.st).2).2).1
                (utfChars env password
                  (env.GetByteArrayElements data (env.GetArrayLength data w.st).2).2).2).1 := by
  simp only [Op.run, loadMemDocument, FPDF_LoadMemDocument, FPDF_GetLastError, lastErrorCalls,
    GetArrayLength, GetByteArrayElements, ReleaseByteArrayElements,
    bind_apply, jstringToChar_apply, releaseString_apply, LOGD_apply, LOGE_apply, invoke_apply,
    invokeVoid_apply, ite_op_apply, pure_apply]
  split <;> simp

theorem loadMemDocumentBuffer_trace (lib : Pdfium σ) (env : JNIEnv σ) (w : World σ)
    (buffer : JRef) (password : Option JRef)
    (haddr : (env.GetDirectBufferAddress buffer w.st).1 ≠ nullptr)
    (hcap : 0 < (env.GetDirectBufferCapacity buffer
      (env.GetDirectBufferAddress buffer w.st).2).1) :
    ((loadMemDocumentBuffer lib env (some buffer) password).run w).2.trace =
        w.trace ++ [Call.jni (JniCall.GetDirectBufferAddress buffer),
            Call.jni (JniCall.GetDirectBufferCapacity buffer)]
          ++ acquireCalls password
          ++ [Call.lib (LibCall.FPDF_LoadMemDocument
                (env.GetDirectBufferAddress buffer w.st).1
                (wrapS 32 (env.GetDirectBufferCapacity buffer
                  (env.GetDirectBufferAddress buffer w.st).2).1)
                (utfChars env password (env.GetDirectBufferCapacity buffer
                  (env.GetDirectBufferAddress buffer w.st).2).2).1)]
          ++ lastErrorCalls (lib.FPDF_LoadMemDocument
                (env.GetDirectBufferAddress buffer w.st).1
                (wrapS 32 (env.GetDirectBufferCapacity buffer
                  (env.GetDirectBufferAddress buffer w.st).2).1)
                (utfChars env password (env.GetDirectBufferCapacity buffer
                  (env.GetDirectBufferAddress buffer w.st).2).2).1
                (utfChars env password (env.GetDirectBufferCapacity buffer
                  (env.GetDirectBufferAddress buffer w.st).2).2).2).1
          ++ releaseCalls password (utfChars env password (env.GetDirectBufferCapacity buffer
                (env.GetDirectBufferAddress buffer w.st).2).2).1
      ∧ ((loadMemDocumentBuffer lib env (some buffer) password).run w).1 =
        TO_JLONG (lib.FPDF_LoadMemDocument
                (env.GetDirectBufferAddress buffer w.st).1
                (wrapS 32 (env.GetDirectBufferCapacity buffer
                  (env.GetDirectBufferAddress buffer w.st).2).1)
                (utfChars env password (env.GetDirectBufferCapacity buffer
                  (env.GetDirectBufferAddress buffer w.st).2).2).1
                (utfChars env password (env.GetDirectBufferCapacity buffer
                  (env.GetDirectBufferAddress buffer w.st).2).2).2).1 := by
  have hc : ¬((env.GetDirectBufferAddress buffer w.st).1 = nullptr ∨
      (env.GetDirectBufferCapacity buffer (env.GetDirectBufferAddress buffer w.st).2).1 ≤ 0) := by
    intro h
    rcases h with h | h
    · exact haddr h
    · omega
  simp only [Op.run, loadMemDocumentBuffer, FPDF_LoadMemDocument, FPDF_GetLastError,
    lastErrorCalls, GetDirectBufferAddress, GetDirectBufferCapacity,
    bind_apply, jstringToChar_apply, releaseString_apply, LOGD_apply, LOGE_apply, invoke_apply,
    ite_op_apply, pure_apply, if_neg hc]
  split <;> simp

theorem loadMemDocumentBuffer_rejected (lib : Pdfium σ) (env : JNIEnv σ) (w : World σ)
    (buffer : JRef) (password : Option JRef)
    (hbad : (env.GetDirectBufferAddress buffer w.st).1 = nullptr ∨
      (env.GetDirectBufferCapacity buffer (env.GetDirectBufferAddress buffer w.st).2).1 ≤ 0) :
    ((loadMemDocumentBuffer lib env (some buffer) password).run w).2.trace =
        w.trace ++ [Call.jni (JniCall.GetDirectBufferAddress buffer),
            Call.jni (JniCall.GetDirectBufferCapacity buffer)]
      ∧ ((loadMemDocumentBuffer lib env (some buffer) password).run w).1 = 0 := by
  simp only [Op.run, loadMemDocumentBuffer, GetDirectBufferAddress, GetDirectBufferCapacity,
    bind_apply, LOGE_apply, invoke_apply, ite_op_apply, pure_apply, if_pos hbad]
  simp

theorem loadPage_trace (lib : Pdfium σ) (w : World σ) (document pageIndex : Int)
    (hdoc : document ≠ 0) :
    ((loadPage lib document pageIndex).run w).2.trace =
        w.trace ++ [Call.lib (LibCall.FPDF_LoadPage (jlongToPtr document) pageIndex)]
          ++ lastErrorCalls (lib.FPDF_LoadPage (jlongToPtr document) pageIndex w.st).1
      ∧ ((loadPage lib document pageIndex).run w).1 =
        TO_JLONG (lib.FPDF_LoadPage (jlongToPtr document) pageIndex w.st).1 := by
  simp only [Op.run, loadPage, FPDF_LoadPage, FPDF_GetLastError, lastErrorCalls,
    bind_apply, LOGD_apply, LOGE_apply, invoke_apply, ite_op_apply, pure_apply, if_neg hdoc]
  split <;> simp

theorem loadDocument_faithful (lib : Pdfium σ) (env : JNIEnv σ) (w : World σ)
    (filePath password : Option JRef) :
    Faithful lib env (loadDocument lib env filePath password) w := by
  have h := (loadDocument_trace lib env w filePath password).1
  simp only [List.append_assoc] at h
  refine ⟨_, h, ?_⟩
  simp only [Op.run, loadDocument, FPDF_LoadDocument, FPDF_GetLastError,
    bind_apply, jstringToChar_apply, releaseString_apply, LOGD_apply, LOGE_apply, invoke_apply,
    ite_op_apply, pure_apply, replay_append, replay_acquireCalls, replay_releaseCalls,
    replay_lastErrorCalls, replay_cons, replay_nil, applyCall]
  split <;> rfl

theorem loadMemDocument_faithful (lib : Pdfium σ) (env : JNIEnv σ) (w : World σ)
    (data : JRef) (password : Option JRef) :
    Faithful lib env (loadMemDocument lib env (some data) password) w := by
  have h := (loadMemDocument_trace lib env w data password).1
  simp only [List.append_assoc] at h
  refine ⟨_, h, ?_⟩
  simp only [Op.run, loadMemDocument, FPDF_LoadMemDocument, FPDF_GetLastError,
    GetArrayLength, GetByteArrayElements, ReleaseByteArrayElements,
    bind_apply, jstringToChar_apply, releaseString_apply, LOGD_apply, LOGE_apply, invoke_apply,
    invokeVoid_apply, ite_op_apply, pure_apply, replay_append, replay_acquireCalls,
    replay_releaseCalls, replay_lastErrorCalls, replay_cons, replay_nil, applyCall,
    List.cons_append, List.nil_append]
  split <;> rfl

theorem loadMemDocumentBuffer_faithful (lib : Pdfium σ) (env : JNIEnv σ) (w : World σ)
    (buffer : JRef) (password : Option JRef)
    (haddr : (env.GetDirectBufferAddress buffer w.st).1 ≠ nullptr)
    (hcap : 0 < (env.GetDirectBufferCapacity buffer
      (env.GetDirectBufferAddress buffer w.st).2).1) :
    Faithful lib env (loadMemDocumentBuffer lib env (some buffer) password) w := by
  have h := (loadMemDocumentBuffer_trace lib env w buffer password haddr hcap).1
  simp only [List.append_assoc] at h
  refine ⟨_, h, ?_⟩
  have hc : ¬((env.GetDirectBufferAddress buffer w.st).1 = nullptr ∨
      (env.GetDirectBufferCapacity buffer (env.GetDirectBufferAddress buffer w.st).2).1 ≤ 0) := by
    intro h
    rcases h with h | h
    · exact haddr h
    · omega
  simp only [Op.run, loadMemDocumentBuffer, FPDF_LoadMemDocument, FPDF_GetLastError,
    GetDirectBufferAddress, GetDirectBufferCapacity,
    bind_apply, jstringToChar_apply, releaseString_apply, LOGD_apply, LOGE_apply, invoke_apply,
    ite_op_apply, pure_apply, if_neg hc, replay_append, replay_acquireCalls,
    replay_releaseCalls, replay_lastErrorCalls, replay_cons, replay_nil, applyCall,
    List.cons_append, List.nil_append]
  split <;> rfl

theorem loadMemDocumentBuffer_rejected_faithful (lib : Pdfium σ) (env : JNIEnv σ)
    (w : World σ) (buffer : JRef) (password : Option JRef)
    (hbad : (env.GetDirectBufferAddress buffer w.st).1 = nullptr ∨
      (env.GetDirectBufferCapacity buffer (env.GetDirectBufferAddress buffer w.st).2).1 ≤ 0) :
    Faithful lib env (loadMemDocumentBuffer lib env (some buffer) password) w := by
  refine ⟨_, (loadMemDocumentBuffer_rejected lib env w buffer password hbad).1, ?_⟩
  simp only [Op.run, loadMemDocumentBuffer, GetDirectBufferAddress, GetDirectBufferCapacity,
    bind_apply, LOGE_apply, invoke_apply, ite_op_apply, pure_apply, if_pos hbad,
    replay_cons, replay_nil, applyCall]

theorem loadPage_faithful (lib : Pdfium σ) (env : JNIEnv σ) (w : World σ)
    (document pageIndex : Int) (hdoc : document ≠ 0) :
    Faithful lib env (loadPage lib document pageIndex) w := by
  have h := (loadPage_trace lib w document pageIndex hdoc).1
  simp only [List.append_assoc] at h
  refine ⟨_, h, ?_⟩
  simp only [Op.run, loadPage, FPDF_LoadPage, FPDF_GetLastError,
    bind_apply, LOGD_apply, LOGE_apply, invoke_apply, ite_op_apply, pure_apply, if_neg hdoc,
    replay_append, replay_lastErrorCalls, replay_cons, replay_nil, applyCall,
    List.cons_append, List.nil_append]
  split <;> rfl

theorem loadDocument_loadsOnce (lib : Pdfium σ) (env : JNIEnv σ) (w : World σ)
    (filePath password : Option JRef) :
    LoadsOnce (loadDocument lib env filePath password) w
        (LibCall.FPDF_LoadDocument (utfChars env filePath w.st).1
          (utfChars env password (utfChars env filePath w.st).2).1)
        (lib.FPDF_LoadDocument (utfChars env filePath w.st).1
          (utfChars env password (utfChars env filePath w.st).2).1
          (utfChars env password (utfChars env filePath w.st).2).2).1 := by
  have h := loadDocument_trace lib env w filePath password
  refine ⟨?_, h.2⟩
  rw [h.1]
  by_cases hp : (lib.FPDF_LoadDocument (utfChars env filePath w.st).1
        (utfChars env password (utfChars env filePath w.st).2).1
        (utfChars env password (utfChars env filePath w.st).2).2).1 = nullptr <;>
    simp [lastErrorCalls, hp]

theorem loadMemDocument_loadsOnce (lib : Pdfium σ) (env : JNIEnv σ) (w : World σ)
    (data : JRef) (password : Option JRef) :
    LoadsOnce (loadMemDocument lib env (some data) password) w
        (LibCall.FPDF_LoadMemDocument
          (env.GetByteArrayElements data (env.GetArrayLength data w.st).2).1
          (env.GetArrayLength data w.st).1
          (utfChars env password
            (env.GetByteArrayElements data (env.GetArrayLength data w.st).2).2).1)
        (lib.FPDF_LoadMemDocument
          (env.GetByteArrayElements data (env.GetArrayLength data w.st).2).1
          (env.GetArrayLength data w.st).1
          (utfChars env password
            (env.GetByteArrayElements data (env.GetArrayLength data w.st).2).2).1
          (utfChars env password
            (env.GetByteArrayElements data (env.GetArrayLength data w.st).2).2).2).1 := by
  have h := loadMemDocument_trace lib env w data password
  refine ⟨?_, h.2⟩
  rw [h.1]
  by_cases hp : (lib.FPDF_LoadMemDocument
        (env.GetByteArrayElements data (env.GetArrayLength data w.st).2).1
        (env.GetArrayLength data w.st).1
        (utfChars env password
          (env.GetByteArrayElements data (env.GetArrayLength data w.st).2).2).1
        (utfChars env password
          (env.GetByteArrayElements data (env.GetArrayLength data w.st).2).2).2).1 = nullptr <;>
    simp [lastErrorCalls, hp]

theorem loadMemDocumentBuffer_loadsOnce (lib : Pdfium σ) (env : JNIEnv σ) (w : World σ)
    (buffer : JRef) (password : Option JRef)
    (haddr : (env.GetDirectBufferAddress buffer w.st).1 ≠ nullptr)
    (hcap : 0 < (env.GetDirectBufferCapacity buffer
      (env.GetDirectBufferAddress buffer w.st).2).1) :
    LoadsOnce (loadMemDocumentBuffer lib env (some buffer) password) w
        (LibCall.FPDF_LoadMemDocument
          (env.GetDirectBufferAddress buffer w.st).1
          (wrapS 32 (env.GetDirectBufferCapacity buffer
            (env.GetDirectBufferAddress buffer w.st).2).1)
          (utfChars env password (env.GetDirectBufferCapacity buffer
            (env.GetDirectBufferAddress buffer w.st).2).2).1)
        (lib.FPDF_LoadMemDocument
          (env.GetDirectBufferAddress buffer w.st).1
          (wrapS 32 (env.GetDirectBufferCapacity buffer
            (env.GetDirectBufferAddress buffer w.st).2).1)
          (utfChars env password (env.GetDirectBufferCapacity buffer
            (env.GetDirectBufferAddress buffer w.st).2).2).1
          (utfChars env password (env.GetDirectBufferCapacity buffer
            (env.GetDirectBufferAddress buffer w.st).2).2).2).1 := by
  have h := loadMemDocumentBuffer_trace lib env w buffer password haddr hcap
  refine ⟨?_, h.2⟩
  rw [h.1]
  by_cases hp : (lib.FPDF_LoadMemDocument
        (env.GetDirectBufferAddress buffer w.st).1
        (wrapS 32 (env.GetDirectBufferCapacity buffer
          (env.GetDirectBufferAddress buffer w.st).2).1)
        (utfChars env password (env.GetDirectBufferCapacity buffer
          (env.GetDirectBufferAddress buffer w.st).2).2).1
        (utfChars env password (env.GetDirectBufferCapacity buffer
          (env.GetDirectBufferAddress buffer w.st).2).2).2).1 = nullptr <;>
    simp [lastErrorCalls, hp]

theorem loadPage_loadsOnce (lib : Pdfium σ) (w : World σ) (document pageIndex : Int)
    (hdoc : document ≠ 0) :
    LoadsOnce (loadPage lib document pageIndex) w
        (LibCall.FPDF_LoadPage (jlongToPtr document) pageIndex)
        (lib.FPDF_LoadPage (jlongToPtr document) pageIndex w.st).1 := by
  have h := loadPage_trace lib w document pageIndex hdoc
  refine ⟨?_, h.2⟩
  rw [h.1]
  by_cases hp : (lib.FPDF_LoadPage (jlongToPtr document) pageIndex w.st).1 = nullptr <;>
    simp [lastErrorCalls, hp]

/-- C3: each of the four load operations, on inputs that pass its validation, calls its
pdfium load entry point exactly once, and the pointer `p` that call returns decides the
rest: when `p` is null, `FPDF_GetLastError` is queried exactly once and the handle returned is
0; when `p` is not null, no last-error query is made and the handle returned is non-zero
and has the integer value of `p` (modulo 2^64).  Handing such a handle back turns it into
the pointer `p` again, as shown for `closeDocument` and `closePage`.  Every call a load
records, the load call and the last-error query included, is really made to its oracle
(`Faithful`). -/
theorem load_outcome_decided_by_library (lib : Pdfium σ) (env : JNIEnv σ) (w : World σ)
    (filePath password : Option JRef) (data buffer : JRef) (document pageIndex : Int)
    (haddr : (env.GetDirectBufferAddress buffer w.st).1 ≠ nullptr)
    (hcap : 0 < (env.GetDirectBufferCapacity buffer
      (env.GetDirectBufferAddress buffer w.st).2).1)
    (hdoc : document ≠ 0) :
    LoadsOnce (loadDocument lib env filePath password) w
        (LibCall.FPDF_LoadDocument (utfChars env filePath w.st).1
          (utfChars env password (utfChars env filePath w.st).2).1)
        (lib.FPDF_LoadDocument (utfChars env filePath w.st).1
          (utfChars env password (utfChars env filePath w.st).2).1
          (utfChars env password (utfChars env filePath w.st).2).2).1
    ∧ LoadsOnce (loadMemDocument lib env (some data) password) w
        (LibCall.FPDF_LoadMemDocument
          (env.GetByteArrayElements data (env.GetArrayLength data w.st).2).1
          (env.GetArrayLength data w.st).1
          (utfChars env password
            (env.GetByteArrayElements data (env.GetArrayLength data w.st).2).2).1)
        (lib.FPDF_LoadMemDocument
          (env.GetByteArrayElements data (env.GetArrayLength data w.st).2).1
          (env.GetArrayLength data w.st).1
          (utfChars env password
            (env.GetByteArrayElements data (env.GetArrayLength data w.st).2).2).1
          (utfChars env password
            (env.GetByteArrayElements data (env.GetArrayLength data w.st).2).2).2).1
    ∧ LoadsOnce (loadMemDocumentBuffer lib env (some buffer) password) w
        (LibCall.FPDF_LoadMemDocument
          (env.GetDirectBufferAddress buffer w.st).1
          (wrapS 32 (env.GetDirectBufferCapacity buffer
            (env.GetDirectBufferAddress buffer w.st).2).1)
          (utfChars env password (env.GetDirectBufferCapacity buffer
            (env.GetDirectBufferAddress buffer w.st).2).2).1)
        (lib.FPDF_LoadMemDocument
          (env.GetDirectBufferAddress buffer w.st).1
          (wrapS 32 (env.GetDirectBufferCapacity buffer
            (env.GetDirectBufferAddress buffer w.st).2).1)
          (utfChars env password (env.GetDirectBufferCapacity buffer
            (env.GetDirectBufferAddress buffer w.st).2).2).1
          (utfChars env password (env.GetDirectBufferCapacity buffer
            (env.GetDirectBufferAddress buffer w.st).2).2).2).1
    ∧ LoadsOnce (loadPage lib document pageIndex) w
        (LibCall.FPDF_LoadPage (jlongToPtr document) pageIndex)
        (lib.FPDF_LoadPage (jlongToPtr document) pageIndex w.st).1
    ∧ (∀ p : Ptr, (TO_JLONG p = 0 ↔ p = nullptr) ∧ wrapU 64 (TO_JLONG p) = (p.val : Int)
        ∧ jlongToPtr (TO_JLONG p) = p
        ∧ (p ≠ nullptr →
            libCalls ((closeDocument lib (TO_JLONG p)).run w).2.trace =
              libCalls w.trace ++ [LibCall.FPDF_CloseDocument p]
            ∧ libCalls ((closePage lib (TO_JLONG p)).run w).2.trace =
              libCalls w.trace ++ [LibCall.FPDF_ClosePage p]))
    ∧ Faithful lib env (loadDocument lib env filePath password) w
    ∧ Faithful lib env (loadMemDocument lib env (some data) password) w
    ∧ Faithful lib env (loadMemDocumentBuffer lib env (some buffer) password) w
    ∧ Faithful lib env (loadPage lib document pageIndex) w := by
  refine ⟨loadDocument_loadsOnce lib env w filePath password,
    loadMemDocument_loadsOnce lib env w data password,
    loadMemDocumentBuffer_loadsOnce lib env w buffer password haddr hcap,
    loadPage_loadsOnce lib w document pageIndex hdoc, ?_,
    loadDocument_faithful lib env w filePath password,
    loadMemDocument_faithful lib env w data password,
    loadMemDocumentBuffer_faithful lib env w buffer password haddr hcap,
    loadPage_faithful lib env w document pageIndex hdoc⟩
  · intro p
    refine ⟨TO_JLONG_eq_zero_iff p, wrapU_TO_JLONG p, jlongToPtr_TO_JLONG p, ?_⟩
    intro hp
    have h0 : TO_JLONG p ≠ 0 := fun h => hp ((TO_JLONG_eq_zero_iff p).1 h)
    have key : ∀ h : Int, h ≠ 0 →
        libCalls ((closeDocument lib h).run w).2.trace =
          libCalls w.trace ++ [LibCall.FPDF_CloseDocument (jlongToPtr h)]
        ∧ libCalls ((closePage lib h).run w).2.trace =
          libCalls w.trace ++ [LibCall.FPDF_ClosePage (jlongToPtr h)] := by
      intro h hh
      simp only [Op.run, closeDocument, closePage, FPDF_CloseDocument, FPDF_ClosePage,
        if_neg hh, bind_apply, LOGD_apply, invokeVoid_apply, libCalls_append, libCalls_lib,
        libCalls_nil, and_self]
    have hk := key (TO_JLONG p) h0
    rw [jlongToPtr_TO_JLONG p] at hk
    exact hk

/-- C2, the code at the inputs the claim says are rejected: `loadDocument` with a null path
does not return early; it passes the null path pointer to `FPDF_LoadDocument`, and queries
`FPDF_GetLastError` when that call returns null.  The byte-array `loadMemDocument` with an
array of length 0 passes the elements and the size 0 to `FPDF_LoadMemDocument` in the same
way.  In both the handle returned is the pointer the library returned. -/
theorem unchecked_loads_reach_library (lib : Pdfium σ) (env : JNIEnv σ) (w : World σ)
    (password : Option JRef) (data : JRef) (hlen : (env.GetArrayLength data w.st).1 = 0) :
    LoadsOnce (loadDocument lib env none password) w
        (LibCall.FPDF_LoadDocument nullptr (utfChars env password w.st).1)
        (lib.FPDF_LoadDocument nullptr (utfChars env password w.st).1
          (utfChars env password w.st).2).1
    ∧ LoadsOnce (loadMemDocument lib env (some data) password) w
        (LibCall.FPDF_LoadMemDocument
          (env.GetByteArrayElements data (env.GetArrayLength data w.st).2).1 0
          (utfChars env password
            (env.GetByteArrayElements data (env.GetArrayLength data w.st).2).2).1)
        (lib.FPDF_LoadMemDocument
          (env.GetByteArrayElements data (env.GetArrayLength data w.st).2).1 0
          (utfChars env password
            (env.GetByteArrayElements data (env.GetArrayLength data w.st).2).2).1
          (utfChars env password
            (env.GetByteArrayElements data (env.GetArrayLength data w.st).2).2).2).1 := by
  constructor
  · exact loadDocument_loadsOnce lib env w none password
  · have h := loadMemDocument_loadsOnce lib env w data password
    rw [hlen] at h
    exact h

/-- C2 at a concrete input: against a library that fails every load, `loadDocument(null,
null)` makes two calls into pdfium, and so does `loadMemDocument` on an array of length 0. -/
theorem unchecked_loads_reach_library_witness :
    ((stubEnv 9 0 true).GetArrayLength 1 world0.st).1 = 0
    ∧ libCalls ((loadDocument (stubLib 32 0 0) (stubEnv 9 0 true) none none).run world0).2.trace
        = [LibCall.FPDF_LoadDocument 0 0, LibCall.FPDF_GetLastError]
    ∧ libCalls ((loadMemDocument (stubLib 32 0 0) (stubEnv 9 0 true) (some 1) none).run
        world0).2.trace
        = [LibCall.FPDF_LoadMemDocument 9 0 0, LibCall.FPDF_GetLastError] :=
  ⟨by decide,
    (unchecked_loads_reach_library (stubLib 32 0 0) (stubEnv 9 0 true) world0 none 1
      (by decide)).1.1,
    (unchecked_loads_reach_library (stubLib 32 0 0) (stubEnv 9 0 true) world0 none 1
      (by decide)).2.1⟩

/-- C9: the temporary references of the three document loads.  The calls each load makes are
listed in order, and every listed call is really made to its oracle (`Faithful`): the
state of the oracles after the load is the one these calls leave, so a release that is
listed has been applied to the environment.  `loadDocument` obtains the characters of the
path and of the password (`acquireCalls`), calls the library, and then releases both
(`releaseCalls`); the byte-array load obtains length and elements, the characters of the
password, calls the library, releases the password and then the elements with mode
`JNI_ABORT`, whether or not the library returned null; the direct-buffer load obtains only
the characters of the password and releases them after the library call.  The rejecting
paths obtain nothing: a null array or buffer makes no call, an invalid buffer only the two
buffer queries.  A null string is neither obtained nor released; a non-null string is
obtained once and, when characters were obtained, exactly these are released once. -/
theorem load_temporaries_released (lib : Pdfium σ) (env : JNIEnv σ) (w : World σ)
    (filePath password : Option JRef) (data badBuffer buffer : JRef) :
    ((loadDocument lib env filePath password).run w).2.trace =
        w.trace ++ acquireCalls filePath ++ acquireCalls password
          ++ [Call.lib (LibCall.FPDF_LoadDocument (utfChars env filePath w.st).1
                (utfChars env password (utfChars env filePath w.st).2).1)]
          ++ lastErrorCalls (lib.FPDF_LoadDocument (utfChars env filePath w.st).1
                (utfChars env password (utfChars env filePath w.st).2).1
                (utfChars env password (utfChars env filePath w.st).2).2).1
          ++ releaseCalls filePath (utfChars env filePath w.st).1
          ++ releaseCalls password (utfChars env password (utfChars env filePath w.st).2).1
    ∧ Faithful lib env (loadDocument lib env filePath password) w
    ∧ Silent (loadMemDocument lib env none password) w 0
    ∧ ((loadMemDocument lib env (some data) password).run w).2.trace =
        w.trace ++ [Call.jni (JniCall.GetArrayLength data),
            Call.jni (JniCall.GetByteArrayElements data)]
          ++ acquireCalls password
          ++ [Call.lib (LibCall.FPDF_LoadMemDocument
                (env.GetByteArrayElements data (env.GetArrayLength data w.st).2).1
                (env.GetArrayLength data w.st).1
                (utfChars env password
                  (env.GetByteArrayElements data (env.GetArrayLength data w.st).2).2).1)]
          ++ lastErrorCalls (lib.FPDF_LoadMemDocument
                (env.GetByteArrayElements data (env.GetArrayLength data w.st).2).1
                (env.GetArrayLength data w.st).1
                (utfChars env password
                  (env.GetByteArrayElements data (env.GetArrayLength data w.st).2).2).1
                (utfChars env password
                  (env.GetByteArrayElements data (env.GetArrayLength data w.st).2).2).2).1
          ++ releaseCalls password (utfChars env password
                (env.GetByteArrayElements data (env.GetArrayLength data w.st).2).2).1
          ++ [Call.jni (JniCall.ReleaseByteArrayElements data
                (env.GetByteArrayElements data (env.GetArrayLength data w.st).2).1 JNI_ABORT)]
    ∧ Faithful lib env (loadMemDocument lib env (some data) password) w
    ∧ Silent (loadMemDocumentBuffer lib env none password) w 0
    ∧ ((env.GetDirectBufferAddress badBuffer w.st).1 = nullptr ∨
        (env.GetDirectBufferCapacity badBuffer
          (env.GetDirectBufferAddress badBuffer w.st).2).1 ≤ 0 →
        ((loadMemDocumentBuffer lib env (some badBuffer) password).run w).2.trace =
            w.trace ++ [Call.jni (JniCall.GetDirectBufferAddress badBuffer),
              Call.jni (JniCall.GetDirectBufferCapacity badBuffer)]
          ∧ ((loadMemDocumentBuffer lib env (some badBuffer) password).run w).1 = 0
          ∧ Faithful lib env (loadMemDocumentBuffer lib env (some badBuffer) password) w)
    ∧ ((env.GetDirectBufferAddress buffer w.st).1 ≠ nullptr →
        0 < (env.GetDirectBufferCapacity buffer (env.GetDirectBufferAddress buffer w.st).2).1 →
        ((loadMemDocumentBuffer lib env (some buffer) password).run w).2.trace =
            w.trace ++ [Call.jni (JniCall.GetDirectBufferAddress buffer),
                Call.jni (JniCall.GetDirectBufferCapacity buffer)]
              ++ acquireCalls password
              ++ [Call.lib (LibCall.FPDF_LoadMemDocument
                    (env.GetDirectBufferAddress buffer w.st).1
                    (wrapS 32 (env.GetDirectBufferCapacity buffer
                      (env.GetDirectBufferAddress buffer w.st).2).1)
                    (utfChars env password (env.GetDirectBufferCapacity buffer
                      (env.GetDirectBufferAddress buffer w.st).2).2).1)]
              ++ lastErrorCalls (lib.FPDF_LoadMemDocument
                    (env.GetDirectBufferAddress buffer w.st).1
                    (wrapS 32 (env.GetDirectBufferCapacity buffer
                      (env.GetDirectBufferAddress buffer w.st).2).1)
                    (utfChars env password (env.GetDirectBufferCapacity buffer
                      (env.GetDirectBufferAddress buffer w.st).2).2).1
                    (utfChars env password (env.GetDirectBufferCapacity buffer
                      (env.GetDirectBufferAddress buffer w.st).2).2).2).1
              ++ releaseCalls password (utfChars env password
                    (env.GetDirectBufferCapacity buffer
                      (env.GetDirectBufferAddress buffer w.st).2).2).1
          ∧ Faithful lib env (loadMemDocumentBuffer lib env (some buffer) password) w)
    ∧ (∀ cStr : Ptr, acquireCalls none = [] ∧ releaseCalls none cStr = [])
    ∧ (∀ (jStr : JRef) (cStr : Ptr),
        acquireCalls (some jStr) = [Call.jni (JniCall.GetStringUTFChars jStr)]
        ∧ (cStr ≠ nullptr →
            releaseCalls (some jStr) cStr = [Call.jni (JniCall.ReleaseStringUTFChars jStr cStr)])
        ∧ releaseCalls (some jStr) nullptr = []) := by
  refine ⟨(loadDocument_trace lib env w filePath password).1,
    loadDocument_faithful lib env w filePath password, ?_,
    (loadMemDocument_trace lib env w data password).1,
    loadMemDocument_faithful lib env w data password, ?_, ?_, ?_, ?_, ?_⟩
  · simp [Silent, Op.run, loadMemDocument]
  · simp [Silent, Op.run, loadMemDocumentBuffer]
  · intro hbad
    exact ⟨(loadMemDocumentBuffer_rejected lib env w badBuffer password hbad).1,
      (loadMemDocumentBuffer_rejected lib env w badBuffer password hbad).2,
      loadMemDocumentBuffer_rejected_faithful lib env w badBuffer password hbad⟩
  · intro haddr hcap
    exact ⟨(loadMemDocumentBuffer_trace lib env w buffer password haddr hcap).1,
      loadMemDocumentBuffer_faithful lib env w buffer password haddr hcap⟩
  · intro cStr
    exact ⟨rfl, rfl⟩
  · intro jStr cStr
    refine ⟨rfl, ?_, ?_⟩
    · intro h
      simp [releaseCalls, h]
    · simp [releaseCalls]

/-- C10: in the direct-buffer load, for a non-null buffer with a non-null address and a
capacity `c > 0`, the one library load call receives the address `GetDirectBufferAddress`
returned and, as size, `c` converted to a signed 32-bit integer; the calls made around it
are the two buffer queries and the password conversion, none of which copies the bytes.
That size is `c` when `c ≤ 2^31 - 1`; when `c ≥ 2^31` it is not `c`: it is the signed
32-bit reading of `c mod 2^32`, which lies in `[-2^31, 2^31)`. -/
theorem direct_buffer_size_is_capacity_as_int32 (lib : Pdfium σ) (env : JNIEnv σ)
    (w : World σ) (buffer : JRef) (password : Option JRef)
    (haddr : (env.GetDirectBufferAddress buffer w.st).1 ≠ nullptr)
    (hcap : 0 < (env.GetDirectBufferCapacity buffer
      (env.GetDirectBufferAddress buffer w.st).2).1) :
    LoadsOnce (loadMemDocumentBuffer lib env (some buffer) password) w
        (LibCall.FPDF_LoadMemDocument
          (env.GetDirectBufferAddress buffer w.st).1
          (wrapS 32 (env.GetDirectBufferCapacity buffer
            (env.GetDirectBufferAddress buffer w.st).2).1)
          (utfChars env password (env.GetDirectBufferCapacity buffer
            (env.GetDirectBufferAddress buffer w.st).2).2).1)
        (lib.FPDF_LoadMemDocument
          (env.GetDirectBufferAddress buffer w.st).1
          (wrapS 32 (env.GetDirectBufferCapacity buffer
            (env.GetDirectBufferAddress buffer w.st).2).1)
          (utfChars env password (env.GetDirectBufferCapacity buffer
            (env.GetDirectBufferAddress buffer w.st).2).2).1
          (utfChars env password (env.GetDirectBufferCapacity buffer
            (env.GetDirectBufferAddress buffer w.st).2).2).2).1
    ∧ ((loadMemDocumentBuffer lib env (some buffer) password).run w).2.trace =
        w.trace ++ [Call.jni (JniCall.GetDirectBufferAddress buffer),
            Call.jni (JniCall.GetDirectBufferCapacity buffer)]
          ++ acquireCalls password
          ++ [Call.lib (LibCall.FPDF_LoadMemDocument
                (env.GetDirectBufferAddress buffer w.st).1
                (wrapS 32 (env.GetDirectBufferCapacity buffer
                  (env.GetDirectBufferAddress buffer w.st).2).1)
                (utfChars env password (env.GetDirectBufferCapacity buffer
                  (env.GetDirectBufferAddress buffer w.st).2).2).1)]
          ++ lastErrorCalls (lib.FPDF_LoadMemDocument
                (env.GetDirectBufferAddress buffer w.st).1
                (wrapS 32 (env.GetDirectBufferCapacity buffer
                  (env.GetDirectBufferAddress buffer w.st).2).1)
                (utfChars env password (env.GetDirectBufferCapacity buffer
                  (env.GetDirectBufferAddress buffer w.st).2).2).1
                (utfChars env password (env.GetDirectBufferCapacity buffer
                  (env.GetDirectBufferAddress buffer w.st).2).2).2).1
          ++ releaseCalls password (utfChars env password (env.GetDirectBufferCapacity buffer
                (env.GetDirectBufferAddress buffer w.st).2).2).1
    ∧ ((env.GetDirectBufferCapacity buffer (env.GetDirectBufferAddress buffer w.st).2).1
          ≤ 2 ^ 31 - 1 →
        wrapS 32 (env.GetDirectBufferCapacity buffer
            (env.GetDirectBufferAddress buffer w.st).2).1 =
          (env.GetDirectBufferCapacity buffer (env.GetDirectBufferAddress buffer w.st).2).1)
    ∧ (2 ^ 31 ≤ (env.GetDirectBufferCapacity buffer
          (env.GetDirectBufferAddress buffer w.st).2).1 →
        wrapS 32 (env.GetDirectBufferCapacity buffer
            (env.GetDirectBufferAddress buffer w.st).2).1 ≠
          (env.GetDirectBufferCapacity buffer (env.GetDirectBufferAddress buffer w.st).2).1)
    ∧ wrapU 32 (wrapS 32 (env.GetDirectBufferCapacity buffer
            (env.GetDirectBufferAddress buffer w.st).2).1) =
        wrapU 32 (env.GetDirectBufferCapacity buffer
            (env.GetDirectBufferAddress buffer w.st).2).1
    ∧ -2 ^ 31 ≤ wrapS 32 (env.GetDirectBufferCapacity buffer
            (env.GetDirectBufferAddress buffer w.st).2).1
    ∧ wrapS 32 (env.GetDirectBufferCapacity buffer
            (env.GetDirectBufferAddress buffer w.st).2).1 < 2 ^ 31 := by
  refine ⟨loadMemDocumentBuffer_loadsOnce lib env w buffer password haddr hcap,
    (loadMemDocumentBuffer_trace lib env w buffer password haddr hcap).1, ?_, ?_, ?_, ?_, ?_⟩
  all_goals
    generalize (env.GetDirectBufferCapacity buffer
      (env.GetDirectBufferAddress buffer w.st).2).1 = c at hcap ⊢
    unfold wrapS
    try unfold wrapU
    split <;> omega

/-! ## Bitmaps -/

theorem wrapS64_of_int32_mul (a b : Int) (ha : IsInt32 a) (hb : IsInt32 b) :
    wrapS 64 (wrapS 64 a * wrapS 64 b) = a * b := by
  obtain ⟨ha1, ha2⟩ := ha
  obtain ⟨hb1, hb2⟩ := hb
  have ea : wrapS 64 a = a := by unfold wrapS; split <;> omega
  have eb : wrapS 64 b = b := by unfold wrapS; split <;> omega
  rw [ea, eb]
  have h1 : a * b ≤ 2 ^ 62 := by nlinarith
  have h2 : -(2 ^ 62) ≤ a * b := by nlinarith
  generalize a * b = x at h1 h2
  unfold wrapS
  split <;> omega

theorem getBitmapBuffer_eval (lib : Pdfium σ) (env : JNIEnv σ) (w : World σ) (bitmap : Int)
    (hs : IsInt32 (strideOf lib bitmap w.st).1) (hh : IsInt32 (heightOf lib bitmap w.st).1) :
    ((getBitmapBuffer lib env bitmap).run w).1 =
      if bitmap = 0 then none
      else if (bufferOf lib bitmap w.st).1 = nullptr then none
      else if (env.NewDirectByteBuffer (bufferOf lib bitmap w.st).1
          ((strideOf lib bitmap w.st).1 * (heightOf lib bitmap w.st).1)
          (strideOf lib bitmap w.st).2).1 = true
        then some ⟨(bufferOf lib bitmap w.st).1,
          (strideOf lib bitmap w.st).1 * (heightOf lib bitmap w.st).1⟩
        else none := by
  by_cases h0 : bitmap = 0
  · simp [Op.run, getBitmapBuffer, h0]
  · by_cases hb : (bufferOf lib bitmap w.st).1 = nullptr
    · have hb2 : (lib.FPDFBitmap_GetBuffer (jlongToPtr bitmap) w.st).1 = nullptr := hb
      simp only [Op.run, getBitmapBuffer, FPDFBitmap_GetBuffer, if_neg h0, if_pos hb, if_pos hb2,
        bind_apply, LOGE_apply, invoke_apply, ite_op_apply, pure_apply]
    · have hb2 : ¬(lib.FPDFBitmap_GetBuffer (jlongToPtr bitmap) w.st).1 = nullptr := hb
      have hc := wrapS64_of_int32_mul _ _ hs hh
      simp only [strideOf, heightOf, widthOf, bufferOf] at hc
      simp only [Op.run, getBitmapBuffer, FPDFBitmap_GetBuffer, FPDFBitmap_GetWidth,
        FPDFBitmap_GetHeight, FPDFBitmap_GetStride, NewDirectByteBuffer, if_neg h0, if_neg hb,
        if_neg hb2, bind_apply, LOGD_apply, invoke_apply, ite_op_apply, pure_apply, hc,
        strideOf, heightOf, widthOf, bufferOf]

/-- C4, as amended: `getBitmapBuffer` returns null exactly when the bitmap handle is 0, or
`FPDFBitmap_GetBuffer` reports a null buffer, or `NewDirectByteBuffer` fails to allocate
the buffer object.  Any view it returns starts at the buffer pointer the library reported
and its capacity is the integer product of the reported stride and height, with no
wrap-around, for every signed 32-bit stride and height; the reported width does not enter. -/
theorem getBitmapBuffer_view (lib : Pdfium σ) (env : JNIEnv σ) (w : World σ) (bitmap : Int)
    (hs : IsInt32 (strideOf lib bitmap w.st).1) (hh : IsInt32 (heightOf lib bitmap w.st).1) :
    (((getBitmapBuffer lib env bitmap).run w).1 = none ↔
        bitmap = 0 ∨ (bufferOf lib bitmap w.st).1 = nullptr
          ∨ (env.NewDirectByteBuffer (bufferOf lib bitmap w.st).1
              ((strideOf lib bitmap w.st).1 * (heightOf lib bitmap w.st).1)
              (strideOf lib bitmap w.st).2).1 = false)
    ∧ (∀ view, ((getBitmapBuffer lib env bitmap).run w).1 = some view →
        view.address = (bufferOf lib bitmap w.st).1
        ∧ view.capacity = (strideOf lib bitmap w.st).1 * (heightOf lib bitmap w.st).1)
    ∧ (bitmap ≠ 0 → (bufferOf lib bitmap w.st).1 ≠ nullptr →
        (env.NewDirectByteBuffer (bufferOf lib bitmap w.st).1
              ((strideOf lib bitmap w.st).1 * (heightOf lib bitmap w.st).1)
              (strideOf lib bitmap w.st).2).1 = true →
        ((getBitmapBuffer lib env bitmap).run w).1 =
          some ⟨(bufferOf lib bitmap w.st).1,
            (strideOf lib bitmap w.st).1 * (heightOf lib bitmap w.st).1⟩) := by
  rw [getBitmapBuffer_eval lib env w bitmap hs hh]
  refine ⟨?_, ?_, ?_⟩
  · split_ifs <;> simp_all
  · intro view
    split_ifs <;> simp_all
    intro h
    simp [← h]
  · intro h0 hb ha
    simp [h0, hb, ha]

/-- C4, as stated, fails: with the non-zero handle 5, a library that reports the non-null
buffer 7 and an environment in which `NewDirectByteBuffer` fails, the result is null. -/
theorem getBitmapBuffer_absent_on_failed_allocation :
    ¬(((getBitmapBuffer (stubLib 32 7 10) (stubEnv 9 0 false) 5).run world0).1 = none ↔
      ((5 : Int) = 0
        ∨ ((stubLib 32 7 10).FPDFBitmap_GetBuffer (jlongToPtr 5) world0.st).1 = nullptr)) := by
  decide

/-! ## Queries -/

theorem wrapU_wrapS_64 (x : Int) : wrapU 64 (wrapS 64 x) = wrapU 64 x := by
  unfold wrapU wrapS
  split <;> omega

theorem wrapS_64_range (x : Int) : -2 ^ 63 ≤ wrapS 64 x ∧ wrapS 64 x < 2 ^ 63 := by
  unfold wrapS
  split <;> omega

/-- C6: with a non-zero handle, each query makes exactly one call, to its own library entry
point with the pointer of the handle, and returns what that call produced.
`getPageCount`, `getPageWidth`, `getPageHeight`, `getBitmapStride`, `getBitmapWidth` and
`getBitmapHeight` return the library's value unchanged; `getDocPermissions` returns the
signed 64-bit value with the bits of the library's unsigned bitmask (equal to it modulo
2^64); `getFileVersion` returns the number the library left in its out-parameter when the
library's result is non-zero (success) and -1 when it is 0 (failure). -/
theorem queries_return_library_value (lib : Pdfium σ) (w : World σ) (handle : Int)
    (hh : handle ≠ 0) :
    (getPageCount lib handle).run w =
        ((lib.FPDF_GetPageCount (jlongToPtr handle) w.st).1,
          { st := (lib.FPDF_GetPageCount (jlongToPtr handle) w.st).2,
            trace := w.trace ++ [Call.lib (LibCall.FPDF_GetPageCount (jlongToPtr handle))],
            log := w.log ++ [(Priority.debug, "Número de páginas: %d")] })
    ∧ (getPageWidth lib handle).run w =
        ((lib.FPDF_GetPageWidth (jlongToPtr handle) w.st).1,
          { st := (lib.FPDF_GetPageWidth (jlongToPtr handle) w.st).2,
            trace := w.trace ++ [Call.lib (LibCall.FPDF_GetPageWidth (jlongToPtr handle))],
            log := w.log ++ [(Priority.debug, "Ancho de página: %.2f")] })
    ∧ (getPageHeight lib handle).run w =
        ((lib.FPDF_GetPageHeight (jlongToPtr handle) w.st).1,
          { st := (lib.FPDF_GetPageHeight (jlongToPtr handle) w.st).2,
            trace := w.trace ++ [Call.lib (LibCall.FPDF_GetPageHeight (jlongToPtr handle))],
            log := w.log ++ [(Priority.debug, "Alto de página: %.2f")] })
    ∧ (getBitmapStride lib handle).run w =
        ((lib.FPDFBitmap_GetStride (jlongToPtr handle) w.st).1,
          { st := (lib.FPDFBitmap_GetStride (jlongToPtr handle) w.st).2,
            trace := w.trace ++ [Call.lib (LibCall.FPDFBitmap_GetStride (jlongToPtr handle))],
            log := w.log ++ [(Priority.debug, "Stride del bitmap: %d")] })
    ∧ (getBitmapWidth lib handle).run w =
        ((lib.FPDFBitmap_GetWidth (jlongToPtr handle) w.st).1,
          { st := (lib.FPDFBitmap_GetWidth (jlongToPtr handle) w.st).2,
            trace := w.trace ++ [Call.lib (LibCall.FPDFBitmap_GetWidth (jlongToPtr handle))],
            log := w.log ++ [(Priority.debug, "Ancho del bitmap: %d")] })
    ∧ (getBitmapHeight lib handle).run w =
        ((lib.FPDFBitmap_GetHeight (jlongToPtr handle) w.st).1,
          { st := (lib.FPDFBitmap_GetHeight (jlongToPtr handle) w.st).2,
            trace := w.trace ++ [Call.lib (LibCall.FPDFBitmap_GetHeight (jlongToPtr handle))],
            log := w.log ++ [(Priority.debug, "Alto del bitmap: %d")] })
    ∧ ((getDocPermissions lib handle).run w).2.trace =
        w.trace ++ [Call.lib (LibCall.FPDF_GetDocPermissions (jlongToPtr handle))]
    ∧ wrapU 64 ((getDocPermissions lib handle).run w).1 =
        wrapU 64 ((lib.FPDF_GetDocPermissions (jlongToPtr handle) w.st).1 : Int)
    ∧ -2 ^ 63 ≤ ((getDocPermissions lib handle).run w).1
    ∧ ((getDocPermissions lib handle).run w).1 < 2 ^ 63
    ∧ ((getFileVersion lib handle).run w).2.trace =
        w.trace ++ [Call.lib (LibCall.FPDF_GetFileVersion (jlongToPtr handle))]
    ∧ ((lib.FPDF_GetFileVersion (jlongToPtr handle) 0 w.st).1.1 ≠ 0 →
        ((getFileVersion lib handle).run w).1 =
          (lib.FPDF_GetFileVersion (jlongToPtr handle) 0 w.st).1.2)
    ∧ ((lib.FPDF_GetFileVersion (jlongToPtr handle) 0 w.st).1.1 = 0 →
        ((getFileVersion lib handle).run w).1 = -1) := by
  have hp : ((getDocPermissions lib handle).run w).1 =
      wrapS 64 ((lib.FPDF_GetDocPermissions (jlongToPtr handle) w.st).1 : Int) := by
    simp only [Op.run, getDocPermissions, FPDF_GetDocPermissions, if_neg hh, bind_apply,
      LOGD_apply, invoke_apply, pure_apply]
  refine ⟨?_, ?_, ?_, ?_, ?_, ?_, ?_, ?_, ?_, ?_, ?_, ?_, ?_⟩
  · simp only [Op.run, getPageCount, FPDF_GetPageCount, if_neg hh, bind_apply, LOGD_apply,
      invoke_apply, pure_apply]
  · simp only [Op.run, getPageWidth, FPDF_GetPageWidth, if_neg hh, bind_apply, LOGD_apply,
      invoke_apply, pure_apply]
  · simp only [Op.run, getPageHeight, FPDF_GetPageHeight, if_neg hh, bind_apply, LOGD_apply,
      invoke_apply, pure_apply]
  · simp only [Op.run, getBitmapStride, FPDFBitmap_GetStride, if_neg hh, bind_apply, LOGD_apply,
      invoke_apply, pure_apply]
  · simp only [Op.run, getBitmapWidth, FPDFBitmap_GetWidth, if_neg hh, bind_apply, LOGD_apply,
      invoke_apply, pure_apply]
  · simp only [Op.run, getBitmapHeight, FPDFBitmap_GetHeight, if_neg hh, bind_apply, LOGD_apply,
      invoke_apply, pure_apply]
  · simp only [Op.run, getDocPermissions, FPDF_GetDocPermissions, if_neg hh, bind_apply,
      LOGD_apply, invoke_apply, pure_apply]
  · rw [hp]
    exact wrapU_wrapS_64 _
  · rw [hp]
    exact (wrapS_64_range _).1
  · rw [hp]
    exact (wrapS_64_range _).2
  · simp only [Op.run, getFileVersion, FPDF_GetFileVersion, if_neg hh, bind_apply,
      LOGD_apply, LOGE_apply, invoke_apply, ite_op_apply, pure_apply]
    split_ifs <;> rfl
  · intro hok
    simp only [Op.run, getFileVersion, FPDF_GetFileVersion, if_neg hh, bind_apply,
      LOGD_apply, LOGE_apply, invoke_apply, ite_op_apply, pure_apply, ne_eq, hok,
      not_false_eq_true, if_true]
  · intro hfail
    simp only [Op.run, getFileVersion, FPDF_GetFileVersion, if_neg hh, bind_apply,
      LOGD_apply, LOGE_apply, invoke_apply, ite_op_apply, pure_apply, ne_eq, hfail,
      not_true_eq_false, if_false]

/-! ## Pairs -/

theorem setRegion_pair {α : Type} (z a b : α) :
    setRegion (List.replicate (2 : Int).toNat z) 0 2 [a, b] = [a, b] := by
  simp [setRegion, List.replicate]

/-- C7: with a non-zero handle, each of `getPageSizeByIndex`, `deviceToPage` and
`pageToDevice` calls its library entry point exactly once, passing the index, respectively
the viewport, rotation and coordinates, as received.  When the library's result is 0 the
operation returns null.  When it is not 0 and the two-element result array can be
allocated, the operation returns an array of exactly the two values the library left in
its out-parameters, in the order width, height, respectively x, y. -/
theorem pair_operations_return_library_pair (lib : Pdfium σ) (env : JNIEnv σ) (w : World σ)
    (handle : Int) (pageIndex startX startY sizeX sizeY rotate deviceX deviceY : Int)
    (pageX pageY : JDouble) (hh : handle ≠ 0) :
    libCalls ((getPageSizeByIndex lib env handle pageIndex).run w).2.trace =
        libCalls w.trace ++ [LibCall.FPDF_GetPageSizeByIndex (jlongToPtr handle) pageIndex]
    ∧ ((lib.FPDF_GetPageSizeByIndex (jlongToPtr handle) pageIndex
          (JDouble.zero, JDouble.zero) w.st).1.1 = 0 →
        ((getPageSizeByIndex lib env handle pageIndex).run w).1 = none)
    ∧ ((lib.FPDF_GetPageSizeByIndex (jlongToPtr handle) pageIndex
          (JDouble.zero, JDouble.zero) w.st).1.1 ≠ 0 →
        (env.NewDoubleArray 2 (lib.FPDF_GetPageSizeByIndex (jlongToPtr handle) pageIndex
          (JDouble.zero, JDouble.zero) w.st).2).1 = true →
        ((getPageSizeByIndex lib env handle pageIndex).run w).1 =
          some [(lib.FPDF_GetPageSizeByIndex (jlongToPtr handle) pageIndex
                  (JDouble.zero, JDouble.zero) w.st).1.2.1,
                (lib.FPDF_GetPageSizeByIndex (jlongToPtr handle) pageIndex
                  (JDouble.zero, JDouble.zero) w.st).1.2.2])
    ∧ libCalls ((deviceToPage lib env handle startX startY sizeX sizeY rotate
          deviceX deviceY).run w).2.trace =
        libCalls w.trace ++ [LibCall.FPDF_DeviceToPage (jlongToPtr handle) startX startY
          sizeX sizeY rotate deviceX deviceY]
    ∧ ((lib.FPDF_DeviceToPage (jlongToPtr handle) startX startY sizeX sizeY rotate
          deviceX deviceY (JDouble.zero, JDouble.zero) w.st).1.1 = 0 →
        ((deviceToPage lib env handle startX startY sizeX sizeY rotate
          deviceX deviceY).run w).1 = none)
    ∧ ((lib.FPDF_DeviceToPage (jlongToPtr handle) startX startY sizeX sizeY rotate
          deviceX deviceY (JDouble.zero, JDouble.zero) w.st).1.1 ≠ 0 →
        (env.NewDoubleArray 2 (lib.FPDF_DeviceToPage (jlongToPtr handle) startX startY
          sizeX sizeY rotate deviceX deviceY (JDouble.zero, JDouble.zero) w.st).2).1 = true →
        ((deviceToPage lib env handle startX startY sizeX sizeY rotate
          deviceX deviceY).run w).1 =
          some [(lib.FPDF_DeviceToPage (jlongToPtr handle) startX startY sizeX sizeY rotate
                  deviceX deviceY (JDouble.zero, JDouble.zero) w.st).1.2.1,
                (lib.FPDF_DeviceToPage (jlongToPtr handle) startX startY sizeX sizeY rotate
                  deviceX deviceY (JDouble.zero, JDouble.zero) w.st).1.2.2])
    ∧ libCalls ((pageToDevice lib env handle startX startY sizeX sizeY rotate
          pageX pageY).run w).2.trace =
        libCalls w.trace ++ [LibCall.FPDF_PageToDevice (jlongToPtr handle) startX startY
          sizeX sizeY rotate pageX pageY]
    ∧ ((lib.FPDF_PageToDevice (jlongToPtr handle) startX startY sizeX sizeY rotate
          pageX pageY (0, 0) w.st).1.1 = 0 →
        ((pageToDevice lib env handle startX startY sizeX sizeY rotate
          pageX pageY).run w).1 = none)
    ∧ ((lib.FPDF_PageToDevice (jlongToPtr handle) startX startY sizeX sizeY rotate
          pageX pageY (0, 0) w.st).1.1 ≠ 0 →
        (env.NewIntArray 2 (lib.FPDF_PageToDevice (jlongToPtr handle) startX startY
          sizeX sizeY rotate pageX pageY (0, 0) w.st).2).1 = true →
        ((pageToDevice lib env handle startX startY sizeX sizeY rotate
          pageX pageY).run w).1 =
          some [(lib.FPDF_PageToDevice (jlongToPtr handle) startX startY sizeX sizeY rotate
                  pageX pageY (0, 0) w.st).1.2.1,
                (lib.FPDF_PageToDevice (jlongToPtr handle) startX startY sizeX sizeY rotate
                  pageX pageY (0, 0) w.st).1.2.2]) := by
  refine ⟨?_, ?_, ?_, ?_, ?_, ?_, ?_, ?_, ?_⟩
  · simp only [Op.run, getPageSizeByIndex, FPDF_GetPageSizeByIndex, NewDoubleArray,
      SetDoubleArrayRegion, if_neg hh, bind_apply, LOGD_apply, LOGE_apply, invoke_apply,
      invokeVoid_apply, ite_op_apply, pure_apply]
    split_ifs <;> simp
  · intro h1
    simp only [Op.run, getPageSizeByIndex, FPDF_GetPageSizeByIndex, if_neg hh, bind_apply,
      LOGE_apply, invoke_apply, ite_op_apply, pure_apply, if_pos h1]
  · intro h1 h2
    simp only [Op.run, getPageSizeByIndex, FPDF_GetPageSizeByIndex, NewDoubleArray,
      SetDoubleArrayRegion, if_neg hh, bind_apply, LOGD_apply, invoke_apply,
      invokeVoid_apply, ite_op_apply, pure_apply, if_neg h1, h2, if_true, setRegion_pair]
  · simp only [Op.run, deviceToPage, FPDF_DeviceToPage, NewDoubleArray,
      SetDoubleArrayRegion, if_neg hh, bind_apply, LOGD_apply, LOGE_apply, invoke_apply,
      invokeVoid_apply, ite_op_apply, pure_apply]
    split_ifs <;> simp
  · intro h1
    simp only [Op.run, deviceToPage, FPDF_DeviceToPage, if_neg hh, bind_apply,
      LOGE_apply, invoke_apply, ite_op_apply, pure_apply, if_pos h1]
  · intro h1 h2
    simp only [Op.run, deviceToPage, FPDF_DeviceToPage, NewDoubleArray,
      SetDoubleArrayRegion, if_neg hh, bind_apply, LOGD_apply, invoke_apply,
      invokeVoid_apply, ite_op_apply, pure_apply, if_neg h1, h2, if_true, setRegion_pair]
  · simp only [Op.run, pageToDevice, FPDF_PageToDevice, NewIntArray,
      SetIntArrayRegion, if_neg hh, bind_apply, LOGD_apply, LOGE_apply, invoke_apply,
      invokeVoid_apply, ite_op_apply, pure_apply]
    split_ifs <;> simp
  · intro h1
    simp only [Op.run, pageToDevice, FPDF_PageToDevice, if_neg hh, bind_apply,
      LOGE_apply, invoke_apply, ite_op_apply, pure_apply, if_pos h1]
  · intro h1 h2
    simp only [Op.run, pageToDevice, FPDF_PageToDevice, NewIntArray,
      SetIntArrayRegion, if_neg hh, bind_apply, LOGD_apply, invoke_apply,
      invokeVoid_apply, ite_op_apply, pure_apply, if_neg h1, h2, if_true, setRegion_pair]

/-! ## Close and mutate -/

/-- C3 at a concrete input: a library whose loads return the pointer 7, a direct buffer at
address 9 with capacity 100, the document handle 5. -/
theorem load_outcome_decided_by_library_witness :
    ((stubEnv 9 100 true).GetDirectBufferAddress 3 world0.st).1 ≠ nullptr
    ∧ 0 < ((stubEnv 9 100 true).GetDirectBufferCapacity 3
        ((stubEnv 9 100 true).GetDirectBufferAddress 3 world0.st).2).1
    ∧ (5 : Int) ≠ 0
    ∧ LoadsOnce (loadDocument (stubLib 32 7 3) (stubEnv 9 100 true) (some 1) none) world0
        (LibCall.FPDF_LoadDocument 9 0) 7
    ∧ LoadsOnce (loadMemDocument (stubLib 32 7 3) (stubEnv 9 100 true) (some 2) none) world0
        (LibCall.FPDF_LoadMemDocument 9 100 0) 7
    ∧ LoadsOnce (loadMemDocumentBuffer (stubLib 32 7 3) (stubEnv 9 100 true) (some 3) none)
        world0 (LibCall.FPDF_LoadMemDocument 9 100 0) 7
    ∧ LoadsOnce (loadPage (stubLib 32 7 3) 5 0) world0 (LibCall.FPDF_LoadPage 5 0) 7 :=
  ⟨by decide, by decide, by decide,
    (load_outcome_decided_by_library (stubLib 32 7 3) (stubEnv 9 100 true) world0 (some 1) none
      2 3 5 0 (by decide) (by decide) (by decide)).1,
    (load_outcome_decided_by_library (stubLib 32 7 3) (stubEnv 9 100 true) world0 (some 1) none
      2 3 5 0 (by decide) (by decide) (by decide)).2.1,
    (load_outcome_decided_by_library (stubLib 32 7 3) (stubEnv 9 100 true) world0 (some 1) none
      2 3 5 0 (by decide) (by decide) (by decide)).2.2.1,
    (load_outcome_decided_by_library (stubLib 32 7 3) (stubEnv 9 100 true) world0 (some 1) none
      2 3 5 0 (by decide) (by decide) (by decide)).2.2.2.1⟩

/-- C4 at a concrete input: handle 5, buffer 7, stride 40, height 10, allocation succeeds;
the view starts at 7 and has capacity 400. -/
theorem getBitmapBuffer_view_witness :
    IsInt32 (strideOf (stubLib 32 7 10) 5 world0.st).1
    ∧ IsInt32 (heightOf (stubLib 32 7 10) 5 world0.st).1
    ∧ ((getBitmapBuffer (stubLib 32 7 10) (stubEnv 9 0 true) 5).run world0).1 =
        some ⟨7, 400⟩ :=
  ⟨⟨by decide, by decide⟩, ⟨by decide, by decide⟩,
    (getBitmapBuffer_view (stubLib 32 7 10) (stubEnv 9 0 true) world0 5
      ⟨by decide, by decide⟩ ⟨by decide, by decide⟩).2.2 (by decide) (by decide) (by decide)⟩

/-- C6 at a concrete input: handle 5 against a library reporting 3 pages, version 17 with
success, and the permission mask 4294967292. -/
theorem queries_return_library_value_witness :
    (5 : Int) ≠ 0
    ∧ (getPageCount (stubLib 32 7 3) 5).run world0 =
        (3, { st := 1, trace := [Call.lib (LibCall.FPDF_GetPageCount 5)],
              log := [(Priority.debug, "Número de páginas: %d")] })
    ∧ wrapU 64 ((getDocPermissions (stubLib 32 7 3) 5).run world0).1 = 4294967292
    ∧ ((getFileVersion (stubLib 32 7 3) 5).run world0).1 = 17
    ∧ ((getFileVersion (stubLib 32 7 0) 5).run world0).1 = -1 :=
  ⟨by decide,
    (queries_return_library_value (stubLib 32 7 3) world0 5 (by decide)).1,
    (queries_return_library_value (stubLib 32 7 3) world0 5 (by decide)).2.2.2.2.2.2.2.1,
    (queries_return_library_value (stubLib 32 7 3) world0 5
      (by decide)).2.2.2.2.2.2.2.2.2.2.2.1 (by decide),
    (queries_return_library_value (stubLib 32 7 0) world0 5
      (by decide)).2.2.2.2.2.2.2.2.2.2.2.2 (by decide)⟩

/-- C7 at concrete inputs: handle 5; a library that succeeds yields the two values it wrote,
a library that fails yields null. -/
theorem pair_operations_return_library_pair_witness :
    (5 : Int) ≠ 0
    ∧ ((getPageSizeByIndex (stubLib 32 7 1) (stubEnv 9 0 true) 5 0).run world0).1 =
        some [⟨612⟩, ⟨792⟩]
    ∧ ((deviceToPage (stubLib 32 7 1) (stubEnv 9 0 true) 5 0 0 100 200 0 3 4).run world0).1 =
        some [⟨100⟩, ⟨200⟩]
    ∧ ((pageToDevice (stubLib 32 7 1) (stubEnv 9 0 true) 5 0 0 100 200 0 ⟨1⟩ ⟨2⟩).run world0).1 =
        some [30, 40]
    ∧ ((getPageSizeByIndex (stubLib 32 7 0) (stubEnv 9 0 true) 5 99).run world0).1 = none :=
  ⟨by decide,
    (pair_operations_return_library_pair (stubLib 32 7 1) (stubEnv 9 0 true) world0 5
      0 0 0 100 200 0 3 4 ⟨1⟩ ⟨2⟩ (by decide)).2.2.1 (by decide) (by decide),
    (pair_operations_return_library_pair (stubLib 32 7 1) (stubEnv 9 0 true) world0 5
      0 0 0 100 200 0 3 4 ⟨1⟩ ⟨2⟩ (by decide)).2.2.2.2.2.1 (by decide) (by decide),
    (pair_operations_return_library_pair (stubLib 32 7 1) (stubEnv 9 0 true) world0 5
      0 0 0 100 200 0 3 4 ⟨1⟩ ⟨2⟩ (by decide)).2.2.2.2.2.2.2.2 (by decide) (by decide),
    (pair_operations_return_library_pair (stubLib 32 7 0) (stubEnv 9 0 true) world0 5
      99 0 0 100 200 0 3 4 ⟨1⟩ ⟨2⟩ (by decide)).2.1 (by decide)⟩

/-- C9 at a concrete input: a library that fails every load, strings 1 and 2, array 3, the
object 0 that is not a direct buffer and the direct buffer 4.  The byte-array load makes
five calls, the last of them the release of the elements, and leaves the call counter of
the oracles at 5. -/
theorem load_temporaries_released_witness :
    (((stubEnv 9 100 true).GetDirectBufferAddress 0 world0.st).1 = nullptr ∨
      ((stubEnv 9 100 true).GetDirectBufferCapacity 0
        ((stubEnv 9 100 true).GetDirectBufferAddress 0 world0.st).2).1 ≤ 0)
    ∧ ((stubEnv 9 100 true).GetDirectBufferAddress 4 world0.st).1 ≠ nullptr
    ∧ 0 < ((stubEnv 9 100 true).GetDirectBufferCapacity 4
        ((stubEnv 9 100 true).GetDirectBufferAddress 4 world0.st).2).1
    ∧ ((loadDocument (stubLib 32 0 0) (stubEnv 9 100 true) (some 1) (some 2)).run
        world0).2.trace =
        [Call.jni (JniCall.GetStringUTFChars 1), Call.jni (JniCall.GetStringUTFChars 2),
          Call.lib (LibCall.FPDF_LoadDocument 9 9), Call.lib LibCall.FPDF_GetLastError,
          Call.jni (JniCall.ReleaseStringUTFChars 1 9),
          Call.jni (JniCall.ReleaseStringUTFChars 2 9)]
    ∧ ((loadMemDocument (stubLib 32 0 0) (stubEnv 9 100 true) (some 3) none).run
        world0).2.trace =
        [Call.jni (JniCall.GetArrayLength 3), Call.jni (JniCall.GetByteArrayElements 3),
          Call.lib (LibCall.FPDF_LoadMemDocument 9 100 0), Call.lib LibCall.FPDF_GetLastError,
          Call.jni (JniCall.ReleaseByteArrayElements 3 9 2)]
    ∧ Faithful (stubLib 32 0 0) (stubEnv 9 100 true)
        (loadMemDocument (stubLib 32 0 0) (stubEnv 9 100 true) (some 3) none) world0
    ∧ ((loadMemDocument (stubLib 32 0 0) (stubEnv 9 100 true) (some 3) none).run
        world0).2.st = 5
    ∧ ((loadMemDocumentBuffer (stubLib 32 0 0) (stubEnv 9 100 true) (some 0) (some 2)).run
        world0).2.trace =
        [Call.jni (JniCall.GetDirectBufferAddress 0),
          Call.jni (JniCall.GetDirectBufferCapacity 0)]
    ∧ ((loadMemDocumentBuffer (stubLib 32 0 0) (stubEnv 9 100 true) (some 4) (some 2)).run
        world0).2.trace =
        [Call.jni (JniCall.GetDirectBufferAddress 4),
          Call.jni (JniCall.GetDirectBufferCapacity 4),
          Call.jni (JniCall.GetStringUTFChars 2),
          Call.lib (LibCall.FPDF_LoadMemDocument 9 100 9), Call.lib LibCall.FPDF_GetLastError,
          Call.jni (JniCall.ReleaseStringUTFChars 2 9)] :=
  ⟨by decide, by decide, by decide,
    (load_temporaries_released (stubLib 32 0 0) (stubEnv 9 100 true) world0 (some 1) (some 2)
      3 0 4).1,
    (load_temporaries_released (stubLib 32 0 0) (stubEnv 9 100 true) world0 (some 1) none
      3 0 4).2.2.2.1,
    (load_temporaries_released (stubLib 32 0 0) (stubEnv 9 100 true) world0 (some 1) none
      3 0 4).2.2.2.2.1,
    by decide,
    ((load_temporaries_released (stubLib 32 0 0) (stubEnv 9 100 true) world0 (some 1) (some 2)
      3 0 4).2.2.2.2.2.2.1 (by decide)).1,
    ((load_temporaries_released (stubLib 32 0 0) (stubEnv 9 100 true) world0 (some 1) (some 2)
      3 0 4).2.2.2.2.2.2.2.1 (by decide) (by decide)).1⟩

/-- C10 at concrete inputs: a direct buffer at address 9 of capacity 100 is passed with
size 100, of capacity 2^31 with size -2^31, and of capacity 2^32 with size 0. -/
theorem direct_buffer_size_is_capacity_as_int32_witness :
    ((stubEnv 9 4294967296 true).GetDirectBufferAddress 4 world0.st).1 ≠ nullptr
    ∧ 0 < ((stubEnv 9 4294967296 true).GetDirectBufferCapacity 4
        ((stubEnv 9 4294967296 true).GetDirectBufferAddress 4 world0.st).2).1
    ∧ LoadsOnce (loadMemDocumentBuffer (stubLib 32 7 0) (stubEnv 9 100 true) (some 4) none)
        world0 (LibCall.FPDF_LoadMemDocument 9 100 0) 7
    ∧ LoadsOnce (loadMemDocumentBuffer (stubLib 32 7 0) (stubEnv 9 2147483648 true) (some 4)
        none) world0 (LibCall.FPDF_LoadMemDocument 9 (-2147483648) 0) 7
    ∧ LoadsOnce (loadMemDocumentBuffer (stubLib 32 7 0) (stubEnv 9 4294967296 true) (some 4)
        none) world0 (LibCall.FPDF_LoadMemDocument 9 0 0) 7 :=
  ⟨by decide, by decide,
    (direct_buffer_size_is_capacity_as_int32 (stubLib 32 7 0) (stubEnv 9 100 true) world0 4 none
      (by decide) (by decide)).1,
    (direct_buffer_size_is_capacity_as_int32 (stubLib 32 7 0) (stubEnv 9 2147483648 true) world0
      4 none (by decide) (by decide)).1,
    (direct_buffer_size_is_capacity_as_int32 (stubLib 32 7 0) (stubEnv 9 4294967296 true) world0
      4 none (by decide) (by decide)).1⟩

end Claims

end PdfiumJNI
